import Mathlib

set_option maxRecDepth 10000

/-!
# Verification of the incremental-synthesis decision engine

Shallow embedding of the LLM decision/synthesis core of the repository
(`backend/app/services/llm/`): the heuristic force-check
(`should_force_resynthesize`), the output sanitizer (`validate_llm_output`),
the synthesis pipelines (`synthesize_content`, `comprehensive_synthesize`,
`resynthesize_content`, `smart_synthesize`) and the service coordinator
(`LLMService.smart_synthesize`).

Modelling conventions:
* Parsed JSON values are modelled by the inductive `Json` below; Python dicts
  become ordered association lists (`List (String × Json)`), with reads
  returning the first binding and writes replacing the first binding in place
  (appending when absent), exactly like CPython dict insertion-order
  semantics.  Inputs coming from `json.loads` never alias, so the in-place
  mutations of the source are modelled as functional updates.
* The generative model reply is represented post-parse, as an
  `Option Json` (`none` = `parse_json_response` returned `None`); the reply
  is an arbitrary value, so quantifying over `Option Json` covers every
  possible model reply.
* Python code that can raise (`for x in non_iterable`, `.get` on a non-dict,
  slicing a non-sliceable value) is modelled with `Except String`.
* Only the client-present (real generative) path of the service coordinator
  is embedded; the mock path taken when no API key is configured is out of
  scope of the claims.
-/

/-- JSON values, as produced by `json.loads`.  Numbers are modelled as
rationals (Python ints and floats, exact at the magnitudes involved). -/
inductive Json where
  | null
  | bool (b : Bool)
  | num (q : ℚ)
  | str (s : String)
  | arr (elems : List Json)
  | obj (fields : List (String × Json))

/-- First binding of a key in a dict, i.e. Python `d.get(k)` returning
`none` when the key is absent (the caller supplies the default). -/
def getKey (kvs : List (String × Json)) (k : String) : Option Json :=
  match kvs with
  | [] => none
  | (k1, v) :: rest => if k1 = k then some v else getKey rest k

/-- Python `d[k] = v`: replace the value of the first binding of `k`
keeping its position (CPython preserves insertion order), append when the
key is absent. -/
def setKey (kvs : List (String × Json)) (k : String) (v : Json) :
    List (String × Json) :=
  match kvs with
  | [] => [(k, v)]
  | (k1, v1) :: rest =>
      if k1 = k then (k, v) :: rest else (k1, v1) :: setKey rest k v

/-- Python truthiness of a JSON value (`bool(x)`); a missing key
(`d.get(k)` = `None`) is handled by the callers. -/
def jsonTruthy : Json → Bool
  | .null => false
  | .bool b => b
  | .num q => decide (q ≠ 0)
  | .str s => decide (s ≠ "")
  | .arr xs => !xs.isEmpty
  | .obj kvs => !kvs.isEmpty

/-- Truthiness of the result of `d.get(k)` (absent key → `None` → falsy). -/
def truthyOpt : Option Json → Bool
  | none => false
  | some v => jsonTruthy v

/-- `MAX_TRANSCRIPT_LENGTH` from `app/services/llm/prompts.py`. -/
def maxTranscriptLength : Nat := 50000

/-- `validate_input_length` (`validation.py`): truncate to
`MAX_TRANSCRIPT_LENGTH` characters (`text[:50000]`, modelled on the
character list of the string). -/
def validateInputLength (text : String) : String :=
  if text.length > maxTranscriptLength then
    String.mk (text.data.take maxTranscriptLength)
  else text

/-- Helper for `pyWords`: scan the characters, `acc` holds the current word
reversed.  Whitespace runs separate words and empty pieces are dropped,
exactly the behaviour of Python `s.split()` with no arguments. -/
def pyWordsAux : List Char → List Char → List String
  | [], acc => if acc.isEmpty then [] else [String.mk acc.reverse]
  | c :: cs, acc =>
      if c.isWhitespace then
        if acc.isEmpty then pyWordsAux cs []
        else String.mk acc.reverse :: pyWordsAux cs []
      else pyWordsAux cs (c :: acc)

/-- Python `s.split()`: split on whitespace runs, dropping empty pieces. -/
def pyWords (s : String) : List String := pyWordsAux s.data []

/-- `len(s.split())` — the word count used by the force heuristics. -/
def wordCount (s : String) : Nat := (pyWords s).length

/-- `should_force_resynthesize` (`smart_synthesis.py`).  The float
comparison `new_len > existing_len * 0.5` is rendered exactly as
`2 * new_len > existing_len` (multiplication by the exactly representable
0.5 is exact for all realistic word counts).  The history entries only
contribute their count, so the history is taken as a plain list. -/
def shouldForceResynthesize (existingNarrative newContent : String)
    (inputHistory : List α) : Bool × Option String :=
  let existingLen := wordCount existingNarrative
  let newLen := wordCount newContent
  if existingLen > 0 ∧ 2 * newLen > existingLen then
    (true, some "New content is substantial relative to existing note")
  else if inputHistory.length ≥ 5 then
    (true, some "Multiple fragmented inputs benefit from full synthesis")
  else if existingLen < 50 then
    (true, some "Short note benefits from full synthesis")
  else
    (false, none)

/-- Substring test (used to state the claims about reason strings). -/
def containsSubstr (needle hay : String) : Bool :=
  hay.data.tails.any (fun t => needle.data.isPrefixOf t)

/-- ASCII lower-casing of a character (the reasons are ASCII). -/
def asciiLowerChar (c : Char) : Char :=
  if c.toNat ≥ 65 ∧ c.toNat ≤ 90 then Char.ofNat (c.toNat + 32) else c

/-- ASCII lower-casing of a string; the spec quotes the expected reason
fragments in lower case, so "reason containing w" is read
case-insensitively as `containsSubstr w (asciiLower reason)`. -/
def asciiLower (s : String) : String := String.mk (s.data.map asciiLowerChar)

/-- `resolve_folders` (`validation.py`): the folders list from the user
context when present and truthy (non-empty), else the default set.  The
argument models `user_context.get("folders")` (with `none` covering both a
missing/falsy `user_context` and a missing/falsy `folders` key). -/
def resolveFolders (folders? : Option (List String)) : List String :=
  match folders? with
  | some fs => if fs.isEmpty then ["Work", "Personal", "Ideas", "Meetings", "Projects"] else fs
  | none => ["Work", "Personal", "Ideas", "Meetings", "Projects"]

/-- `data.get("folder") not in allowed_folders`, negated: a value is "in"
the allowed list exactly when it is a string equal to one of its
elements (Python `==` between a non-string and a string is false). -/
def folderOk (v? : Option Json) (allowedFolders : List String) : Bool :=
  match v? with
  | some (.str s) => allowedFolders.contains s
  | _ => false

/-- `reminder.get("priority") not in valid_priorities`, negated. -/
def priorityOk (v? : Option Json) : Bool :=
  match v? with
  | some (.str s) => s == "low" || s == "medium" || s == "high"
  | _ => false

/-- Body of the reminder loop of `validate_llm_output`: a dict reminder
with an invalid `priority` gets `priority` set to "medium"; non-dict
entries are skipped by the `isinstance` guard. -/
def fixReminder : Json → Json
  | .obj kvs =>
      if priorityOk (getKey kvs "priority") then .obj kvs
      else .obj (setKey kvs "priority" (.str "medium"))
  | v => v

/-- Body of the email loop of `validate_llm_output`: a dict email item
whose `to` is missing or falsy gets `to` set to "recipient". -/
def fixEmail : Json → Json
  | .obj kvs =>
      if truthyOpt (getKey kvs "to") then .obj kvs
      else .obj (setKey kvs "to" (.str "recipient"))
  | v => v

/-- Folder step of `validate_llm_output`:
`if data.get("folder") not in allowed_folders: data["folder"] = ...`. -/
def sanitizeFolderStep (kvs : List (String × Json)) (allowedFolders : List String) :
    List (String × Json) :=
  if folderOk (getKey kvs "folder") allowedFolders then kvs
  else setKey kvs "folder" (.str (allowedFolders.headD "Personal"))

/-- Tags step of `validate_llm_output`:
`if isinstance(data.get("tags"), list): data["tags"] = data["tags"][:5]`. -/
def sanitizeTagsStep (kvs : List (String × Json)) : List (String × Json) :=
  match getKey kvs "tags" with
  | some (.arr xs) => setKey kvs "tags" (.arr (xs.take 5))
  | _ => kvs

/-- One of the two `for x in data.get(key, [])` loops of
`validate_llm_output`, which mutate the dict elements of the iterated
value in place.  Iterating a missing key (default `[]`), a string (chars)
or a dict (keys) changes nothing because no iterated item is a dict;
iterating `None`, a bool or a number raises `TypeError` in Python. -/
def sanitizeLoop (kvs : List (String × Json)) (key : String) (fix : Json → Json) :
    Except String (List (String × Json)) :=
  match getKey kvs key with
  | none => .ok kvs
  | some (.arr xs) => .ok (setKey kvs key (.arr (xs.map fix)))
  | some (.str _) => .ok kvs
  | some (.obj _) => .ok kvs
  | some _ => .error "TypeError: value is not iterable"

/-- `validate_llm_output(data, allowed_folders)` (`validation.py`), the
§4.5 sanitizer: folder containment, tag cap, reminder priority domain,
email `to` backfill, applied in source order.  Calling it on a parsed
value that is not a dict raises `AttributeError` in Python (modelled as
`.error`). -/
def validateLlmOutput (data : Json) (allowedFolders : List String) :
    Except String Json :=
  match data with
  | .obj kvs =>
      match sanitizeLoop (sanitizeTagsStep (sanitizeFolderStep kvs allowedFolders))
          "reminders" fixReminder with
      | .error e => .error e
      | .ok kvs3 =>
          match sanitizeLoop kvs3 "email" fixEmail with
          | .error e => .error e
          | .ok kvs4 => .ok (.obj kvs4)
  | _ => .error "AttributeError: parsed response is not a dict"

/-- Python `x[:5]` as applied to `result.get("tags", [])`: slices lists and
strings, raises `TypeError` on anything else. -/
def pySlice5 : Json → Except String Json
  | .arr xs => .ok (.arr (xs.take 5))
  | .str s => .ok (.str (String.mk (s.data.take 5)))
  | .null => .error "TypeError: value is not sliceable"
  | .bool _ => .error "TypeError: value is not sliceable"
  | .num _ => .error "TypeError: value is not sliceable"
  | .obj _ => .error "TypeError: value is not sliceable"

/-- `extract_format_composition` (`validation.py`): returns the pair dict
when both fields are present and truthy, else `None`. -/
def extractFormatComposition (kvs : List (String × Json)) : Json :=
  if truthyOpt (getKey kvs "format_signals") && truthyOpt (getKey kvs "format_recipe") then
    .obj [("format_signals", (getKey kvs "format_signals").getD .null),
          ("format_recipe", (getKey kvs "format_recipe").getD .null)]
  else .null

/-- A Python `str | None` value embedded as JSON. -/
def optStr : Option String → Json
  | some s => .str s
  | none => .null

/-- `_combine_inputs` (`synthesis.py`). -/
def combineInputs (textInput audioTranscript : String) : String :=
  if textInput ≠ "" && audioTranscript ≠ "" then
    "TYPED TEXT:\n" ++ textInput ++ "\n\nSPOKEN AUDIO:\n" ++ audioTranscript
  else if textInput ≠ "" then textInput
  else if audioTranscript ≠ "" then audioTranscript
  else ""

/-- `_empty_synthesis_result` (`synthesis.py`). -/
def emptySynthesisResult : Json :=
  .obj [("narrative", .str ""), ("title", .str "Empty Note"),
        ("folder", .str "Personal"), ("tags", .arr []), ("summary", .null),
        ("calendar", .arr []), ("email", .arr []), ("reminders", .arr []),
        ("next_steps", .arr [])]

/-- Token budget of `synthesize_content` as a function of
`input_words = len(combined_content.split())`:
`min(8000, max(3000, input_words * 3))`. -/
def synthMaxTokens (inputWords : Nat) : Nat :=
  min 8000 (max 3000 (inputWords * 3))

/-- Token budget of `comprehensive_synthesize` as a function of
`total_words`: `min(8000, max(4000, total_words * 4))`. -/
def compMaxTokens (totalWords : Nat) : Nat :=
  min 8000 (max 4000 (totalWords * 4))


/-- `synthesize_content` (`synthesis.py`), from the point the model reply
is available; `data?` is the parsed reply (`parse_json_response` result).
The prompt construction and the transport call do not affect the returned
value and are omitted; a transport failure raises before this point. -/
def synthesizeContent (data? : Option Json) (textInput audioTranscript : String)
    (folders? : Option (List String)) : Except String Json :=
  let combined0 := combineInputs textInput audioTranscript
  if combined0 = "" then .ok emptySynthesisResult
  else
    let combined := validateInputLength combined0
    let foldersList := resolveFolders folders?
    match data? with
    | none =>
        .ok (.obj [
          ("narrative", .str combined),
          ("title", .str "Voice Note"),
          ("folder", .str "Personal"),
          ("tags", .arr []),
          ("summary", .str (if combined.length > 200 then
              String.mk (combined.data.take 200) ++ "..." else combined)),
          ("type_detection", .null),
          ("format_composition", .null),
          ("related_entities", .null),
          ("open_loops", .arr []),
          ("calendar", .arr []),
          ("email", .arr []),
          ("reminders", .arr []),
          ("next_steps", .arr [])])
    | some data =>
        match validateLlmOutput data foldersList with
        | .error e => .error e
        | .ok vdata =>
            match vdata with
            | .obj kvs =>
                match pySlice5 ((getKey kvs "tags").getD (.arr [])) with
                | .error e => .error e
                | .ok tags =>
                    .ok (.obj [
                      ("narrative", (getKey kvs "narrative").getD (.str combined)),
                      ("title", (getKey kvs "title").getD (.str "Voice Note")),
                      ("folder", (getKey kvs "folder").getD (.str "Personal")),
                      ("tags", tags),
                      ("summary", (getKey kvs "summary").getD .null),
                      ("type_detection", (getKey kvs "type_detection").getD .null),
                      ("format_composition", extractFormatComposition kvs),
                      ("related_entities", (getKey kvs "related_entities").getD .null),
                      ("open_loops", (getKey kvs "open_loops").getD (.arr [])),
                      ("calendar", (getKey kvs "calendar").getD (.arr [])),
                      ("email", (getKey kvs "email").getD (.arr [])),
                      ("reminders", (getKey kvs "reminders").getD (.arr [])),
                      ("next_steps", .arr [])])
            | _ => .error "unreachable: validateLlmOutput only returns dicts"

/-- `comprehensive_synthesize` (`synthesis.py`), from the point the model
reply is available (same conventions as `synthesizeContent`).  Note its
fallback and success results have no `next_steps` entry and its fallback
`summary` is the full combined content. -/
def comprehensiveSynthesize (data? : Option Json) (textInput audioTranscript : String)
    (folders? : Option (List String)) : Except String Json :=
  let combined0 := combineInputs textInput audioTranscript
  if combined0 = "" then .ok emptySynthesisResult
  else
    let combined := validateInputLength combined0
    let foldersList := resolveFolders folders?
    match data? with
    | none =>
        .ok (.obj [
          ("narrative", .str combined),
          ("title", .str "Voice Note"),
          ("folder", .str "Personal"),
          ("tags", .arr []),
          ("summary", .str combined),
          ("type_detection", .null),
          ("format_composition", .null),
          ("related_entities", .null),
          ("open_loops", .arr []),
          ("calendar", .arr []),
          ("email", .arr []),
          ("reminders", .arr [])])
    | some data =>
        match validateLlmOutput data foldersList with
        | .error e => .error e
        | .ok vdata =>
            match vdata with
            | .obj kvs =>
                match pySlice5 ((getKey kvs "tags").getD (.arr [])) with
                | .error e => .error e
                | .ok tags =>
                    .ok (.obj [
                      ("narrative", (getKey kvs "narrative").getD (.str combined)),
                      ("title", (getKey kvs "title").getD (.str "Voice Note")),
                      ("folder", (getKey kvs "folder").getD (.str "Personal")),
                      ("tags", tags),
                      ("summary", (getKey kvs "summary").getD
                        ((getKey kvs "narrative").getD (.str combined))),
                      ("type_detection", (getKey kvs "type_detection").getD .null),
                      ("format_composition", extractFormatComposition kvs),
                      ("related_entities", (getKey kvs "related_entities").getD .null),
                      ("open_loops", (getKey kvs "open_loops").getD (.arr [])),
                      ("calendar", (getKey kvs "calendar").getD (.arr [])),
                      ("email", (getKey kvs "email").getD (.arr [])),
                      ("reminders", (getKey kvs "reminders").getD (.arr []))])
            | _ => .error "unreachable: validateLlmOutput only returns dicts"

/-- One entry of the `input_history` list: a dict with a `type` key
("text" or "audio") and a `content` key.  `typ?` models
`entry.get("type")` and `content?` models the value read by
`entry.get("content", "")` (absent key → default `""`). -/
structure HistoryEntry where
  typ? : Option String
  content : String

/-- The `text_input` rebuilt by `resynthesize_content`: contents of the
"text" history entries joined with blank lines. -/
def historyTextInput (inputHistory : List HistoryEntry) : String :=
  String.intercalate "\n\n"
    ((inputHistory.filter (fun e => e.typ? == some "text")).map (fun e => e.content))

/-- The `audio_transcript` rebuilt by `resynthesize_content`. -/
def historyAudioTranscript (inputHistory : List HistoryEntry) : String :=
  String.intercalate "\n\n"
    ((inputHistory.filter (fun e => e.typ? == some "audio")).map (fun e => e.content))

/-- `resynthesize_content` (`synthesis.py`) on the client-present,
`comprehensive=True` path taken by the service coordinator: partition the
history by kind, join each kind with blank lines, delegate to
`comprehensive_synthesize`. -/
def resynthesizeContent (data? : Option Json) (inputHistory : List HistoryEntry)
    (folders? : Option (List String)) : Except String Json :=
  comprehensiveSynthesize data? (historyTextInput inputHistory)
    (historyAudioTranscript inputHistory) folders?

/-- `smart_synthesize` (`smart_synthesis.py`), the model-driven decision
path, from the point the model reply is available.  `data?` is the parsed
reply.  Confidence literals 0.5 and 0.95 are written as exact rationals. -/
def smartSynthesize (data? : Option Json) (newContent existingNarrative existingTitle : String)
    (existingSummary : Option String) (folders? : Option (List String)) :
    Except String Json :=
  let newContent := validateInputLength newContent
  let existingNarrative := validateInputLength existingNarrative
  let foldersList := resolveFolders folders?
  match data? with
  | none =>
      .ok (.obj [
        ("decision", .obj [
          ("update_type", .str "append"),
          ("confidence", .num (1 / 2)),
          ("reason", .str "JSON parse failed, defaulting to append")]),
        ("result", .obj [
          ("narrative", .str (existingNarrative ++ "\n\n" ++ newContent)),
          ("title", .str existingTitle),
          ("folder", .str "Personal"),
          ("tags", .arr []),
          ("summary", optStr existingSummary),
          ("calendar", .arr []),
          ("email", .arr []),
          ("reminders", .arr []),
          ("next_steps", .arr [])])])
  | some data =>
      match data with
      | .obj dkvs =>
          let decision := (getKey dkvs "decision").getD (.obj [
            ("update_type", .str "append"),
            ("confidence", .num (1 / 2)),
            ("reason", .str "Default decision")])
          let resultData := (getKey dkvs "result").getD (.obj dkvs)
          match validateLlmOutput resultData foldersList with
          | .error e => .error e
          | .ok vdata =>
              match vdata with
              | .obj kvs =>
                  match pySlice5 ((getKey kvs "tags").getD (.arr [])) with
                  | .error e => .error e
                  | .ok tags =>
                      .ok (.obj [
                        ("decision", decision),
                        ("result", .obj [
                          ("narrative", (getKey kvs "narrative").getD
                            (.str (existingNarrative ++ "\n\n" ++ newContent))),
                          ("title", (getKey kvs "title").getD (.str existingTitle)),
                          ("folder", (getKey kvs "folder").getD (.str "Personal")),
                          ("tags", tags),
                          ("summary", (getKey kvs "summary").getD (optStr existingSummary)),
                          ("format_composition", extractFormatComposition kvs),
                          ("related_entities", (getKey kvs "related_entities").getD .null),
                          ("open_loops", (getKey kvs "open_loops").getD (.arr [])),
                          ("calendar", (getKey kvs "calendar").getD (.arr [])),
                          ("email", (getKey kvs "email").getD (.arr [])),
                          ("reminders", (getKey kvs "reminders").getD (.arr [])),
                          ("next_steps", .arr [])])])
              | _ => .error "unreachable: validateLlmOutput only returns dicts"
      | _ => .error "AttributeError: parsed response is not a dict"

/-- `LLMService.smart_synthesize` (`service.py`) on the client-present
path — the decision engine a caller invokes (`decide_and_update` in the
spec).  `resynthData?` is the parsed reply of the generative call made by
`comprehensive_synthesize` on the forced path; `decisionData?` is the
parsed reply of the decision call made by `smart_synthesize`.  The forced
branch never performs the decision call, which the embedding reflects by
its result not depending on `decisionData?`. -/
def serviceSmartSynthesize (resynthData? decisionData? : Option Json)
    (newContent existingNarrative existingTitle : String)
    (existingSummary : Option String) (inputHistory : List HistoryEntry)
    (folders? : Option (List String)) : Except String Json :=
  match shouldForceResynthesize existingNarrative newContent inputHistory with
  | (true, forceReason?) =>
      match resynthesizeContent resynthData? inputHistory folders? with
      | .error e => .error e
      | .ok result =>
          .ok (.obj [
            ("decision", .obj [
              ("update_type", .str "resynthesize"),
              ("confidence", .num (19 / 20)),
              ("reason", .str (forceReason?.getD
                "Heuristic check determined resynthesize needed"))]),
            ("result", result)])
  | (false, _) =>
      smartSynthesize decisionData? newContent existingNarrative existingTitle
        existingSummary folders?

/-- Observer: the `result` entry of a returned `{decision, result}` value. -/
def resultOf (e : Except String Json) : Option Json :=
  match e with
  | .ok (.obj kvs) => getKey kvs "result"
  | _ => none

/-- Observer: the `decision` entry of a returned `{decision, result}` value. -/
def decisionOf (e : Except String Json) : Option Json :=
  match e with
  | .ok (.obj kvs) => getKey kvs "decision"
  | _ => none

/-- Observer: `decision.update_type` of a returned value. -/
def updateTypeOf (e : Except String Json) : Option Json :=
  match decisionOf e with
  | some (.obj kvs) => getKey kvs "update_type"
  | _ => none

/-- Observer: `result.narrative` of a returned value. -/
def narrativeOf (e : Except String Json) : Option Json :=
  match resultOf e with
  | some (.obj kvs) => getKey kvs "narrative"
  | _ => none

/-- Observer: a named field of a returned synthesis result (a bare dict,
as returned by the synthesis pipelines). -/
def fieldOf (e : Except String Json) (k : String) : Option Json :=
  match e with
  | .ok (.obj kvs) => getKey kvs k
  | _ => none

/-- A JSON value Python can iterate with `for x in v` (list, string, dict);
`None`, booleans and numbers raise `TypeError`. -/
def iterable : Json → Bool
  | .arr _ => true
  | .str _ => true
  | .obj _ => true
  | _ => false

/-- The §4.5 folder-containment property of a sanitized dict: the folder
value is a string from the allowed list, or "Personal" when the allowed
list is empty. -/
def folderProp (v? : Option Json) (allowedFolders : List String) : Prop :=
  ∃ s, v? = some (.str s) ∧ (s ∈ allowedFolders ∨ (allowedFolders = [] ∧ s = "Personal"))

/-- Drop every binding of a given key from a dict (used to state the
frame property: which single field sanitization may touch). -/
def dropKey (key : String) : List (String × Json) → List (String × Json)
  | [] => []
  | (k, v) :: rest =>
      if k = key then dropKey key rest else (k, v) :: dropKey key rest

/-- Drop every `priority` binding of a dict reminder. -/
def scrubReminder : Json → Json
  | .obj kvs => .obj (dropKey "priority" kvs)
  | v => v

/-- Drop every `to` binding of a dict email item. -/
def scrubEmail : Json → Json
  | .obj kvs => .obj (dropKey "to" kvs)
  | v => v

/-- Apply a scrubbing function to the elements of a list value. -/
def scrubList (f : Json → Json) : Json → Json
  | .arr xs => .arr (xs.map f)
  | v => v

/-- Scrub the value at a top-level key: inside `reminders` drop the
`priority` fields, inside `email` drop the `to` fields, elsewhere keep. -/
def scrubVal (k : String) (v : Json) : Json :=
  if k = "reminders" then scrubList scrubReminder v
  else if k = "email" then scrubList scrubEmail v
  else v

/-- Erase from a dict exactly the parts `validate_llm_output` is allowed
to touch: the top-level `folder` and `tags` bindings, the `priority`
fields of dict reminders and the `to` fields of dict email items.  Two
dicts with equal scrubs agree on every other key, value and position. -/
def scrubTop : List (String × Json) → List (String × Json)
  | [] => []
  | (k, v) :: rest =>
      if k = "folder" ∨ k = "tags" then scrubTop rest
      else (k, scrubVal k v) :: scrubTop rest

/-- A string of `n` one-letter words (concrete inputs for the word-count
theorems). -/
def mkWords (n : Nat) : String := String.intercalate " " (List.replicate n "w")

/-- A 50001-character input, one character over `MAX_TRANSCRIPT_LENGTH`. -/
def overlongInput : String := String.mk (List.replicate 50001 'a')

/-! ## Basic dictionary lemmas -/

theorem getKey_setKey_self (kvs : List (String × Json)) (k : String) (v : Json) :
    getKey (setKey kvs k v) k = some v := by
  induction kvs with
  | nil => simp [setKey, getKey]
  | cons hd tl ih =>
      obtain ⟨k1, v1⟩ := hd
      by_cases h : k1 = k
      · simp [setKey, getKey, h]
      · simp [setKey, getKey, h, ih]

theorem getKey_setKey_ne (kvs : List (String × Json)) (k k2 : String) (v : Json)
    (h : k ≠ k2) : getKey (setKey kvs k v) k2 = getKey kvs k2 := by
  induction kvs with
  | nil => simp [setKey, getKey, h]
  | cons hd tl ih =>
      obtain ⟨k1, v1⟩ := hd
      by_cases h1 : k1 = k
      · subst h1
        simp [setKey, getKey, h]
      · simp [setKey, getKey, h1, ih]

theorem setKey_self (kvs : List (String × Json)) (k : String) (v : Json)
    (h : getKey kvs k = some v) : setKey kvs k v = kvs := by
  induction kvs with
  | nil => simp [getKey] at h
  | cons hd tl ih =>
      obtain ⟨k1, v1⟩ := hd
      by_cases h1 : k1 = k
      · subst h1
        simp [getKey] at h
        simp [setKey, h]
      · simp [getKey, h1] at h
        simp [setKey, h1, ih h]

theorem resolveFolders_ne_nil (folders? : Option (List String)) :
    resolveFolders folders? ≠ [] := by
  match folders? with
  | none => simp [resolveFolders]
  | some fs =>
      by_cases h : fs.isEmpty
      · simp [resolveFolders, h]
      · simp only [resolveFolders, h, if_false, Bool.false_eq_true]
        simpa [List.isEmpty_iff] using h

/-! ## Sanitizer step lemmas -/

theorem priorityOk_iff (v? : Option Json) :
    priorityOk v? = true ↔
      ∃ s, v? = some (.str s) ∧ (s = "low" ∨ s = "medium" ∨ s = "high") := by
  match v? with
  | none => simp [priorityOk]
  | some .null | some (.bool _) | some (.num _) | some (.arr _) | some (.obj _) =>
      simp [priorityOk]
  | some (.str s) =>
      simp [priorityOk, beq_iff_eq]
      tauto

theorem fixReminder_obj (x : Json) (rk : List (String × Json))
    (h : fixReminder x = .obj rk) :
    ∃ s, getKey rk "priority" = some (.str s) ∧
      (s = "low" ∨ s = "medium" ∨ s = "high") := by
  match x with
  | .null | .bool _ | .num _ | .str _ | .arr _ => simp [fixReminder] at h
  | .obj kvs =>
      by_cases hp : priorityOk (getKey kvs "priority") = true
      · rw [fixReminder, if_pos hp] at h
        cases h
        exact (priorityOk_iff _).mp hp
      · rw [fixReminder, if_neg hp] at h
        cases h
        exact ⟨"medium", getKey_setKey_self .., by simp⟩

theorem fixReminder_idem (x : Json) : fixReminder (fixReminder x) = fixReminder x := by
  match x with
  | .null | .bool _ | .num _ | .str _ | .arr _ => rfl
  | .obj kvs =>
      by_cases hp : priorityOk (getKey kvs "priority") = true
      · rw [fixReminder, if_pos hp, fixReminder, if_pos hp]
      · rw [fixReminder, if_neg hp]
        have h2 : priorityOk (getKey (setKey kvs "priority" (.str "medium")) "priority") = true := by
          rw [getKey_setKey_self]
          simp [priorityOk]
        rw [fixReminder, if_pos h2]

theorem fixEmail_obj (x : Json) (ek : List (String × Json))
    (h : fixEmail x = .obj ek) :
    ∃ v, getKey ek "to" = some v ∧ jsonTruthy v = true := by
  match x with
  | .null | .bool _ | .num _ | .str _ | .arr _ => simp [fixEmail] at h
  | .obj kvs =>
      by_cases ht : truthyOpt (getKey kvs "to") = true
      · rw [fixEmail, if_pos ht] at h
        cases h
        match hv : getKey ek "to" with
        | none => rw [hv] at ht; simp [truthyOpt] at ht
        | some v =>
            rw [hv] at ht
            exact ⟨v, rfl, ht⟩
      · rw [fixEmail, if_neg ht] at h
        cases h
        exact ⟨.str "recipient", getKey_setKey_self .., by simp [jsonTruthy]⟩

theorem fixEmail_idem (x : Json) : fixEmail (fixEmail x) = fixEmail x := by
  match x with
  | .null | .bool _ | .num _ | .str _ | .arr _ => rfl
  | .obj kvs =>
      by_cases ht : truthyOpt (getKey kvs "to") = true
      · rw [fixEmail, if_pos ht, fixEmail, if_pos ht]
      · rw [fixEmail, if_neg ht]
        have h2 : truthyOpt (getKey (setKey kvs "to" (.str "recipient")) "to") = true := by
          rw [getKey_setKey_self]
          simp [truthyOpt, jsonTruthy]
        rw [fixEmail, if_pos h2]

theorem getKey_sanitizeFolderStep_ne (kvs : List (String × Json))
    (fs : List String) (k : String) (h : k ≠ "folder") :
    getKey (sanitizeFolderStep kvs fs) k = getKey kvs k := by
  rw [sanitizeFolderStep]
  split
  · rfl
  · exact getKey_setKey_ne _ _ _ _ (fun h2 => h (h2 ▸ rfl))

theorem getKey_sanitizeTagsStep_ne (kvs : List (String × Json))
    (k : String) (h : k ≠ "tags") :
    getKey (sanitizeTagsStep kvs) k = getKey kvs k := by
  rw [sanitizeTagsStep]
  split
  · exact getKey_setKey_ne _ _ _ _ (fun h2 => h (h2 ▸ rfl))
  · rfl

theorem sanitizeFolderStep_folderProp (kvs : List (String × Json))
    (fs : List String) :
    folderProp (getKey (sanitizeFolderStep kvs fs) "folder") fs := by
  rw [sanitizeFolderStep]
  by_cases h : folderOk (getKey kvs "folder") fs = true
  · rw [if_pos h]
    match hv : getKey kvs "folder" with
    | none => rw [hv] at h; simp [folderOk] at h
    | some .null | some (.bool _) | some (.num _) | some (.arr _) | some (.obj _) =>
        rw [hv] at h; simp [folderOk] at h
    | some (.str s) =>
        rw [hv] at h
        simp only [folderOk] at h
        exact ⟨s, rfl, Or.inl (by simpa using h)⟩
  · rw [if_neg h, getKey_setKey_self]
    match fs with
    | [] => exact ⟨"Personal", rfl, Or.inr ⟨rfl, rfl⟩⟩
    | f :: rest => exact ⟨f, rfl, Or.inl (List.mem_cons_self ..)⟩

theorem sanitizeTagsStep_capped (kvs : List (String × Json)) (xs : List Json)
    (h : getKey (sanitizeTagsStep kvs) "tags" = some (.arr xs)) :
    xs.length ≤ 5 := by
  rw [sanitizeTagsStep] at h
  split at h
  next ys hy =>
    rw [getKey_setKey_self] at h
    cases h
    exact List.length_take_le ..
  next hno =>
    exact (hno xs h).elim

theorem sanitizeLoop_ok_cases (kvs kvs2 : List (String × Json)) (key : String)
    (fix : Json → Json) (h : sanitizeLoop kvs key fix = .ok kvs2) :
    (kvs2 = kvs ∧ ∀ xs, getKey kvs key ≠ some (.arr xs)) ∨
      (∃ xs, getKey kvs key = some (.arr xs) ∧
        kvs2 = setKey kvs key (.arr (xs.map fix))) := by
  rw [sanitizeLoop] at h
  match hv : getKey kvs key with
  | none => rw [hv] at h; cases h; exact Or.inl ⟨rfl, by simp⟩
  | some (.arr xs) =>
      rw [hv] at h; cases h
      exact Or.inr ⟨xs, rfl, rfl⟩
  | some (.str s) => rw [hv] at h; cases h; exact Or.inl ⟨rfl, by simp⟩
  | some (.obj o) => rw [hv] at h; cases h; exact Or.inl ⟨rfl, by simp⟩
  | some .null | some (.bool _) | some (.num _) => rw [hv] at h; cases h

theorem sanitizeLoop_ok_getKey_ne (kvs kvs2 : List (String × Json)) (key : String)
    (fix : Json → Json) (h : sanitizeLoop kvs key fix = .ok kvs2)
    (k : String) (hk : k ≠ key) : getKey kvs2 k = getKey kvs k := by
  rcases sanitizeLoop_ok_cases kvs kvs2 key fix h with ⟨rfl, _⟩ | ⟨xs, _, rfl⟩
  · rfl
  · exact getKey_setKey_ne _ _ _ _ (Ne.symm hk)

theorem sanitizeLoop_ok_iterable (kvs kvs2 : List (String × Json)) (key : String)
    (fix : Json → Json) (h : sanitizeLoop kvs key fix = .ok kvs2)
    (v : Json) (hv : getKey kvs key = some v) : iterable v = true := by
  rw [sanitizeLoop, hv] at h
  match v with
  | .arr _ | .str _ | .obj _ => rfl
  | .null | .bool _ | .num _ => cases h

theorem validateLlmOutput_ok_elim (d : Json) (fs : List String) (r : Json)
    (h : validateLlmOutput d fs = .ok r) :
    ∃ kvs0 kvs3 kvs4, d = .obj kvs0 ∧
      sanitizeLoop (sanitizeTagsStep (sanitizeFolderStep kvs0 fs)) "reminders"
        fixReminder = .ok kvs3 ∧
      sanitizeLoop kvs3 "email" fixEmail = .ok kvs4 ∧
      r = .obj kvs4 := by
  match d with
  | .null | .bool _ | .num _ | .str _ | .arr _ => cases h
  | .obj kvs0 =>
      rw [validateLlmOutput] at h
      split at h
      next e h3 => cases h
      next kvs3 h3 =>
        split at h
        next e h4 => cases h
        next kvs4 h4 =>
          cases h
          exact ⟨kvs0, kvs3, kvs4, rfl, h3, h4, rfl⟩

/-! ## Fixpoint lemmas: each sanitizer step is inert on already-sanitized data -/

theorem sanitizeFolderStep_of_prop (kvs : List (String × Json)) (fs : List String)
    (h : folderProp (getKey kvs "folder") fs) : sanitizeFolderStep kvs fs = kvs := by
  obtain ⟨s, hv, hs | ⟨hfs, hP⟩⟩ := h
  · have hok : folderOk (getKey kvs "folder") fs = true := by
      rw [hv]; simpa [folderOk] using hs
    rw [sanitizeFolderStep, if_pos hok]
  · subst hfs; subst hP
    have hok : folderOk (getKey kvs "folder") ([] : List String) = false := by
      rw [hv]; simp [folderOk]
    rw [sanitizeFolderStep, hok]
    simpa [List.headD] using setKey_self _ _ _ hv

theorem sanitizeTagsStep_of_capped (kvs : List (String × Json))
    (h : ∀ xs, getKey kvs "tags" = some (.arr xs) → xs.length ≤ 5) :
    sanitizeTagsStep kvs = kvs := by
  rw [sanitizeTagsStep]
  split
  next ys hy => rw [List.take_of_length_le (h ys hy)]; exact setKey_self _ _ _ hy
  next => rfl

theorem sanitizeLoop_of_fixed (kvs : List (String × Json)) (key : String)
    (fix : Json → Json)
    (hiter : ∀ v, getKey kvs key = some v → iterable v = true)
    (hfix : ∀ xs, getKey kvs key = some (.arr xs) → xs.map fix = xs) :
    sanitizeLoop kvs key fix = .ok kvs := by
  match hv : getKey kvs key with
  | none => simp only [sanitizeLoop, hv]
  | some (.arr xs) =>
      simp only [sanitizeLoop, hv]
      rw [hfix xs hv, setKey_self _ _ _ hv]
  | some (.str s) => simp only [sanitizeLoop, hv]
  | some (.obj o) => simp only [sanitizeLoop, hv]
  | some .null | some (.bool _) | some (.num _) =>
      exact absurd (hiter _ hv) (by simp [iterable])

theorem map_fixReminder_idem (xs : List Json) :
    (xs.map fixReminder).map fixReminder = xs.map fixReminder := by
  rw [List.map_map]
  exact List.map_congr_left (fun a _ => fixReminder_idem a)

theorem map_fixEmail_idem (xs : List Json) :
    (xs.map fixEmail).map fixEmail = xs.map fixEmail := by
  rw [List.map_map]
  exact List.map_congr_left (fun a _ => fixEmail_idem a)

/-- The bundle of §4.5 properties every `.ok` output dict of
`validate_llm_output` enjoys; this is the workhorse behind the invariant,
idempotence and fixpoint theorems. -/
theorem validateLlmOutput_props (d : Json) (fs : List String)
    (kvs : List (String × Json)) (h : validateLlmOutput d fs = .ok (.obj kvs)) :
    folderProp (getKey kvs "folder") fs ∧
    (∀ xs, getKey kvs "tags" = some (.arr xs) → xs.length ≤ 5) ∧
    ((∀ v, getKey kvs "reminders" = some v → iterable v = true) ∧
      (∀ xs, getKey kvs "reminders" = some (.arr xs) → xs.map fixReminder = xs)) ∧
    ((∀ v, getKey kvs "email" = some v → iterable v = true) ∧
      (∀ xs, getKey kvs "email" = some (.arr xs) → xs.map fixEmail = xs)) := by
  obtain ⟨kvs0, kvs3, kvs4, hd, h3, h4, hr⟩ := validateLlmOutput_ok_elim d fs _ h
  cases hr
  have hfold : getKey kvs "folder" =
      getKey (sanitizeFolderStep kvs0 fs) "folder" := by
    rw [sanitizeLoop_ok_getKey_ne _ _ _ _ h4 _ (by decide),
        sanitizeLoop_ok_getKey_ne _ _ _ _ h3 _ (by decide),
        getKey_sanitizeTagsStep_ne _ _ (by decide)]
  have htags : getKey kvs "tags" =
      getKey (sanitizeTagsStep (sanitizeFolderStep kvs0 fs)) "tags" := by
    rw [sanitizeLoop_ok_getKey_ne _ _ _ _ h4 _ (by decide),
        sanitizeLoop_ok_getKey_ne _ _ _ _ h3 _ (by decide)]
  have hrem : getKey kvs "reminders" = getKey kvs3 "reminders" := by
    rw [sanitizeLoop_ok_getKey_ne _ _ _ _ h4 _ (by decide)]
  refine ⟨hfold ▸ sanitizeFolderStep_folderProp kvs0 fs,
    fun xs hx => sanitizeTagsStep_capped _ xs (htags ▸ hx), ⟨?_, ?_⟩, ⟨?_, ?_⟩⟩
  · intro v hv
    rw [hrem] at hv
    rcases sanitizeLoop_ok_cases _ _ _ _ h3 with ⟨heq, _⟩ | ⟨xs, hx, heq⟩
    · exact sanitizeLoop_ok_iterable _ _ _ _ h3 v (heq ▸ hv)
    · rw [heq, getKey_setKey_self] at hv
      cases hv; rfl
  · intro xs hx
    rw [hrem] at hx
    rcases sanitizeLoop_ok_cases _ _ _ _ h3 with ⟨heq, hno⟩ | ⟨ys, hy, heq⟩
    · exact absurd (heq ▸ hx) (hno xs)
    · rw [heq, getKey_setKey_self] at hx
      cases hx
      exact map_fixReminder_idem ys
  · intro v hv
    rcases sanitizeLoop_ok_cases _ _ _ _ h4 with ⟨heq, _⟩ | ⟨xs, hx, heq⟩
    · exact sanitizeLoop_ok_iterable _ _ _ _ h4 v (heq ▸ hv)
    · rw [heq, getKey_setKey_self] at hv
      cases hv; rfl
  · intro xs hx
    rcases sanitizeLoop_ok_cases _ _ _ _ h4 with ⟨heq, hno⟩ | ⟨ys, hy, heq⟩
    · exact absurd (heq ▸ hx) (hno xs)
    · rw [heq, getKey_setKey_self] at hx
      cases hx
      exact map_fixEmail_idem ys

/-- A dict satisfying the four §4.5 properties is a fixpoint of
`validate_llm_output`. -/
theorem validateLlmOutput_of_props (fs : List String) (kvs : List (String × Json))
    (h1 : folderProp (getKey kvs "folder") fs)
    (h2 : ∀ xs, getKey kvs "tags" = some (.arr xs) → xs.length ≤ 5)
    (h3a : ∀ v, getKey kvs "reminders" = some v → iterable v = true)
    (h3b : ∀ xs, getKey kvs "reminders" = some (.arr xs) → xs.map fixReminder = xs)
    (h4a : ∀ v, getKey kvs "email" = some v → iterable v = true)
    (h4b : ∀ xs, getKey kvs "email" = some (.arr xs) → xs.map fixEmail = xs) :
    validateLlmOutput (.obj kvs) fs = .ok (.obj kvs) := by
  simp only [validateLlmOutput, sanitizeFolderStep_of_prop _ _ h1,
    sanitizeTagsStep_of_capped _ h2, sanitizeLoop_of_fixed _ _ _ h3a h3b,
    sanitizeLoop_of_fixed _ _ _ h4a h4b]

/-- Sanitization output is always a fixpoint of sanitization. -/
theorem validateLlmOutput_fixpoint (d : Json) (fs : List String) (r : Json)
    (h : validateLlmOutput d fs = .ok r) : validateLlmOutput r fs = .ok r := by
  obtain ⟨kvs0, kvs3, kvs4, hd, h3, h4, hr⟩ := validateLlmOutput_ok_elim d fs r h
  subst hr
  obtain ⟨p1, p2, ⟨p3a, p3b⟩, p4a, p4b⟩ := validateLlmOutput_props d fs kvs4 h
  exact validateLlmOutput_of_props fs kvs4 p1 p2 p3a p3b p4a p4b

/-! ## Claim C7 — sanitization is idempotent -/

/-- C7: for every parsed JSON dict `x` and folder list `folders`,
`validate_llm_output(validate_llm_output(x, folders), folders)` equals
`validate_llm_output(x, folders)` (stated on the `.ok` results; when the
first application raises, the composite raises identically). -/
theorem claim_C7_sanitize_idempotent (x : Json) (folders : List String) (r : Json)
    (h : validateLlmOutput x folders = .ok r) :
    validateLlmOutput r folders = .ok r := by
  obtain ⟨kvs0, kvs3, kvs4, hd, h3, h4, hr⟩ := validateLlmOutput_ok_elim x folders r h
  subst hr
  obtain ⟨p1, p2, ⟨p3a, p3b⟩, p4a, p4b⟩ := validateLlmOutput_props x folders kvs4 h
  exact validateLlmOutput_of_props folders kvs4 p1 p2 p3a p3b p4a p4b

/-- Witness for C7 at a concrete unsanitized dict: the first sanitization
changes folder, tags, priority and email `to`; the second is inert. -/
theorem claim_C7_sanitize_idempotent_witness :
    validateLlmOutput
      (.obj [("folder", .str "X"),
             ("tags", .arr [.num 1, .num 2, .num 3, .num 4, .num 5, .num 6]),
             ("reminders", .arr [.obj [("priority", .str "urgent")]]),
             ("email", .arr [.obj [("subject", .str "hi")]])]) ["Work"]
      = .ok (.obj [("folder", .str "Work"),
             ("tags", .arr [.num 1, .num 2, .num 3, .num 4, .num 5]),
             ("reminders", .arr [.obj [("priority", .str "medium")]]),
             ("email", .arr [.obj [("subject", .str "hi"), ("to", .str "recipient")]])]) ∧
    validateLlmOutput
      (.obj [("folder", .str "Work"),
             ("tags", .arr [.num 1, .num 2, .num 3, .num 4, .num 5]),
             ("reminders", .arr [.obj [("priority", .str "medium")]]),
             ("email", .arr [.obj [("subject", .str "hi"), ("to", .str "recipient")]])]) ["Work"]
      = .ok (.obj [("folder", .str "Work"),
             ("tags", .arr [.num 1, .num 2, .num 3, .num 4, .num 5]),
             ("reminders", .arr [.obj [("priority", .str "medium")]]),
             ("email", .arr [.obj [("subject", .str "hi"), ("to", .str "recipient")]])]) :=
  ⟨rfl, claim_C7_sanitize_idempotent
    (.obj [("folder", .str "X"),
           ("tags", .arr [.num 1, .num 2, .num 3, .num 4, .num 5, .num 6]),
           ("reminders", .arr [.obj [("priority", .str "urgent")]]),
           ("email", .arr [.obj [("subject", .str "hi")]])]) ["Work"] _ rfl⟩

/-! ## Claim C6 — the four sanitization guarantees -/

/-- C6: every `.ok` result of `validate_llm_output(d, fs)` has a folder in
`fs` (or "Personal" when `fs` is empty), a tags list of at most five
entries, every dict reminder with a priority in {low, medium, high}, and —
with no email item dropped — every dict email item with a truthy `to`
(the placeholder "recipient" substituted when it was missing or falsy). -/
theorem claim_C6_sanitizer_guarantees (d : Json) (fs : List String) (r : Json)
    (h : validateLlmOutput d fs = .ok r) :
    ∃ kvs, r = .obj kvs ∧
      (∃ f, getKey kvs "folder" = some (.str f) ∧
        (f ∈ fs ∨ (fs = [] ∧ f = "Personal"))) ∧
      (∀ xs, getKey kvs "tags" = some (.arr xs) → xs.length ≤ 5) ∧
      (∀ xs, getKey kvs "reminders" = some (.arr xs) → ∀ x ∈ xs, ∀ rk,
        x = .obj rk → ∃ p, getKey rk "priority" = some (.str p) ∧
          (p = "low" ∨ p = "medium" ∨ p = "high")) ∧
      (∀ kvs0, d = .obj kvs0 → ∀ ys, getKey kvs0 "email" = some (.arr ys) →
        ∃ xs, getKey kvs "email" = some (.arr xs) ∧ xs.length = ys.length ∧
          ∀ x ∈ xs, ∀ ek, x = .obj ek → ∃ v, getKey ek "to" = some v ∧
            jsonTruthy v = true) := by
  obtain ⟨kvs0, kvs3, kvs4, hd, h3, h4, hr⟩ := validateLlmOutput_ok_elim d fs r h
  subst hr
  obtain ⟨p1, p2, ⟨p3a, p3b⟩, p4a, p4b⟩ := validateLlmOutput_props d fs kvs4 h
  refine ⟨kvs4, rfl, p1, p2, ?_, ?_⟩
  · intro xs hx x hmem rk hrk
    have hx2 : x ∈ xs.map fixReminder := (p3b xs hx).symm ▸ hmem
    obtain ⟨y, _, hy⟩ := List.mem_map.mp hx2
    exact fixReminder_obj y rk (by rw [hy, hrk])
  · intro kvs0w hdw ys hys
    cases hd
    cases hdw
    have hys3 : getKey kvs3 "email" = some (.arr ys) := by
      rw [sanitizeLoop_ok_getKey_ne _ _ _ _ h3 _ (by decide),
          getKey_sanitizeTagsStep_ne _ _ (by decide),
          getKey_sanitizeFolderStep_ne _ _ _ (by decide)]
      exact hys
    rcases sanitizeLoop_ok_cases _ _ _ _ h4 with ⟨heq, hno⟩ | ⟨zs, hz, heq⟩
    · exact absurd hys3 (hno ys)
    · have hzs : zs = ys := by
        rw [hz] at hys3
        cases hys3; rfl
      subst hzs
      subst heq
      refine ⟨zs.map fixEmail, getKey_setKey_self .., by simp, ?_⟩
      intro x hmem ek hek
      obtain ⟨y, _, hy⟩ := List.mem_map.mp hmem
      exact fixEmail_obj y ek (by rw [hy, hek])

/-- Witness for C6 at a concrete dict exercising all four guarantees. -/
theorem claim_C6_sanitizer_guarantees_witness :
    ∃ r, validateLlmOutput
      (.obj [("folder", .str "Invented"),
             ("tags", .arr [.str "a", .str "b", .str "c", .str "d", .str "e", .str "f"]),
             ("reminders", .arr [.obj [("priority", .num 3)], .str "skip"]),
             ("email", .arr [.obj [("to", .str "")], .obj [("to", .str "bob")]])])
      ["Ideas", "Work"] = .ok r ∧
    (∃ kvs, r = .obj kvs ∧
      (∃ f, getKey kvs "folder" = some (.str f) ∧
        (f ∈ ["Ideas", "Work"] ∨ ((["Ideas", "Work"] : List String) = [] ∧ f = "Personal"))) ∧
      (∀ xs, getKey kvs "tags" = some (.arr xs) → xs.length ≤ 5) ∧
      (∀ xs, getKey kvs "reminders" = some (.arr xs) → ∀ x ∈ xs, ∀ rk,
        x = .obj rk → ∃ p, getKey rk "priority" = some (.str p) ∧
          (p = "low" ∨ p = "medium" ∨ p = "high")) ∧
      (∀ kvs0, (Json.obj [("folder", .str "Invented"),
             ("tags", .arr [.str "a", .str "b", .str "c", .str "d", .str "e", .str "f"]),
             ("reminders", .arr [.obj [("priority", .num 3)], .str "skip"]),
             ("email", .arr [.obj [("to", .str "")], .obj [("to", .str "bob")]])])
          = .obj kvs0 → ∀ ys, getKey kvs0 "email" = some (.arr ys) →
        ∃ xs, getKey kvs "email" = some (.arr xs) ∧ xs.length = ys.length ∧
          ∀ x ∈ xs, ∀ ek, x = .obj ek → ∃ v, getKey ek "to" = some v ∧
            jsonTruthy v = true)) :=
  ⟨_, rfl, claim_C6_sanitizer_guarantees _ ["Ideas", "Work"] _ rfl⟩

/-! ## Claim C10 — frame property of sanitization -/

theorem dropKey_setKey (kvs : List (String × Json)) (key : String) (v : Json) :
    dropKey key (setKey kvs key v) = dropKey key kvs := by
  induction kvs with
  | nil => simp [setKey, dropKey]
  | cons hd tl ih =>
      obtain ⟨k1, v1⟩ := hd
      by_cases h1 : k1 = key
      · subst h1
        rw [setKey, if_pos rfl, dropKey, if_pos rfl, dropKey, if_pos rfl]
      · rw [setKey, if_neg h1, dropKey, if_neg h1, dropKey, if_neg h1, ih]

theorem scrubTop_setKey_dropped (kvs : List (String × Json)) (k : String) (v : Json)
    (hk : k = "folder" ∨ k = "tags") :
    scrubTop (setKey kvs k v) = scrubTop kvs := by
  induction kvs with
  | nil => simp [setKey, scrubTop, hk]
  | cons hd tl ih =>
      obtain ⟨k1, v1⟩ := hd
      by_cases h1 : k1 = k
      · subst h1
        rw [setKey, if_pos rfl, scrubTop, if_pos hk, scrubTop, if_pos hk]
      · rw [setKey, if_neg h1, scrubTop, scrubTop, ih]

theorem scrubReminder_fixReminder (x : Json) :
    scrubReminder (fixReminder x) = scrubReminder x := by
  match x with
  | .null | .bool _ | .num _ | .str _ | .arr _ => rfl
  | .obj kvs =>
      by_cases hp : priorityOk (getKey kvs "priority") = true
      · rw [fixReminder, if_pos hp]
      · rw [fixReminder, if_neg hp, scrubReminder, scrubReminder, dropKey_setKey]

theorem scrubEmail_fixEmail (x : Json) :
    scrubEmail (fixEmail x) = scrubEmail x := by
  match x with
  | .null | .bool _ | .num _ | .str _ | .arr _ => rfl
  | .obj kvs =>
      by_cases ht : truthyOpt (getKey kvs "to") = true
      · rw [fixEmail, if_pos ht]
      · rw [fixEmail, if_neg ht, scrubEmail, scrubEmail, dropKey_setKey]

/-- Updating a present key with a value of equal scrub leaves the
top-level scrub unchanged. -/
theorem scrubTop_setKey_scrubEq (kvs : List (String × Json)) (k : String)
    (v v2 : Json) (hget : getKey kvs k = some v)
    (hval : scrubVal k v2 = scrubVal k v) :
    scrubTop (setKey kvs k v2) = scrubTop kvs := by
  induction kvs with
  | nil => simp [getKey] at hget
  | cons hd tl ih =>
      obtain ⟨k1, v1⟩ := hd
      by_cases h1 : k1 = k
      · subst h1
        rw [getKey, if_pos rfl] at hget
        cases hget
        rw [setKey, if_pos rfl]
        by_cases hk : k1 = "folder" ∨ k1 = "tags"
        · rw [scrubTop, if_pos hk, scrubTop, if_pos hk]
        · rw [scrubTop, if_neg hk, scrubTop, if_neg hk, hval]
      · rw [getKey, if_neg h1] at hget
        rw [setKey, if_neg h1, scrubTop, scrubTop, ih hget]

/-- C10: frame property of `validate_llm_output` — modelling the in-place
mutation functionally, the returned dict agrees with the input dict on
everything outside the parts sanitization may touch: erasing the top-level
`folder` and `tags` bindings, the `priority` fields of dict reminders and
the `to` fields of dict email items (the `scrubTop` projection) yields
identical dicts, so every other key, value and position — narrative,
title, summary, calendar, open_loops, related_entities and all the rest —
is left unchanged, including the order and count of reminder and email
items. -/
theorem claim_C10_sanitize_frame (fs : List String) (kvs0 : List (String × Json))
    (r : Json) (h : validateLlmOutput (.obj kvs0) fs = .ok r) :
    ∃ kvs, r = .obj kvs ∧ scrubTop kvs = scrubTop kvs0 := by
  obtain ⟨kvs0w, kvs3, kvs4, hdw, h3, h4, hr⟩ :=
    validateLlmOutput_ok_elim (.obj kvs0) fs r h
  injection hdw with hinj
  subst hinj
  subst hr
  refine ⟨kvs4, rfl, ?_⟩
  have s1 : scrubTop (sanitizeFolderStep kvs0 fs) = scrubTop kvs0 := by
    rw [sanitizeFolderStep]
    split
    · rfl
    · exact scrubTop_setKey_dropped _ _ _ (Or.inl rfl)
  have s2 : scrubTop (sanitizeTagsStep (sanitizeFolderStep kvs0 fs)) =
      scrubTop (sanitizeFolderStep kvs0 fs) := by
    rw [sanitizeTagsStep]
    split
    · exact scrubTop_setKey_dropped _ _ _ (Or.inr rfl)
    · rfl
  have s3 : scrubTop kvs3 = scrubTop (sanitizeTagsStep (sanitizeFolderStep kvs0 fs)) := by
    rcases sanitizeLoop_ok_cases _ _ _ _ h3 with ⟨heq, _⟩ | ⟨xs, hx, heq⟩
    · rw [heq]
    · rw [heq]
      refine scrubTop_setKey_scrubEq _ _ _ _ hx ?_
      show Json.arr ((xs.map fixReminder).map scrubReminder) = Json.arr (xs.map scrubReminder)
      rw [List.map_map]
      exact congrArg Json.arr (List.map_congr_left (fun a _ => scrubReminder_fixReminder a))
  have s4 : scrubTop kvs4 = scrubTop kvs3 := by
    rcases sanitizeLoop_ok_cases _ _ _ _ h4 with ⟨heq, _⟩ | ⟨xs, hx, heq⟩
    · rw [heq]
    · rw [heq]
      refine scrubTop_setKey_scrubEq _ _ _ _ hx ?_
      show Json.arr ((xs.map fixEmail).map scrubEmail) = Json.arr (xs.map scrubEmail)
      rw [List.map_map]
      exact congrArg Json.arr (List.map_congr_left (fun a _ => scrubEmail_fixEmail a))
  rw [s4, s3, s2, s1]

/-- Witness for C10 at a concrete dict where sanitization changes all four
designated parts while narrative, calendar, the reminder text and the
email subject survive. -/
theorem claim_C10_sanitize_frame_witness :
    validateLlmOutput
      (.obj [("narrative", .str "keep me"),
             ("folder", .str "Invented"),
             ("tags", .arr [.num 1, .num 2, .num 3, .num 4, .num 5, .num 6]),
             ("reminders", .arr [.obj [("text", .str "buy milk"), ("priority", .num 9)]]),
             ("email", .arr [.obj [("subject", .str "s")]]),
             ("calendar", .arr [.str "event"])]) ["Work"]
    = .ok (.obj [("narrative", .str "keep me"),
             ("folder", .str "Work"),
             ("tags", .arr [.num 1, .num 2, .num 3, .num 4, .num 5]),
             ("reminders", .arr [.obj [("text", .str "buy milk"), ("priority", .str "medium")]]),
             ("email", .arr [.obj [("subject", .str "s"), ("to", .str "recipient")]]),
             ("calendar", .arr [.str "event"])]) ∧
    scrubTop [("narrative", .str "keep me"),
             ("folder", .str "Work"),
             ("tags", .arr [.num 1, .num 2, .num 3, .num 4, .num 5]),
             ("reminders", .arr [.obj [("text", .str "buy milk"), ("priority", .str "medium")]]),
             ("email", .arr [.obj [("subject", .str "s"), ("to", .str "recipient")]]),
             ("calendar", .arr [.str "event"])]
      = scrubTop [("narrative", .str "keep me"),
             ("folder", .str "Invented"),
             ("tags", .arr [.num 1, .num 2, .num 3, .num 4, .num 5, .num 6]),
             ("reminders", .arr [.obj [("text", .str "buy milk"), ("priority", .num 9)]]),
             ("email", .arr [.obj [("subject", .str "s")]]),
             ("calendar", .arr [.str "event"])] := by
  obtain ⟨kvs, hk, hs⟩ := claim_C10_sanitize_frame ["Work"]
    [("narrative", .str "keep me"),
     ("folder", .str "Invented"),
     ("tags", .arr [.num 1, .num 2, .num 3, .num 4, .num 5, .num 6]),
     ("reminders", .arr [.obj [("text", .str "buy milk"), ("priority", .num 9)]]),
     ("email", .arr [.obj [("subject", .str "s")]]),
     ("calendar", .arr [.str "event"])]
    (.obj [("narrative", .str "keep me"),
     ("folder", .str "Work"),
     ("tags", .arr [.num 1, .num 2, .num 3, .num 4, .num 5]),
     ("reminders", .arr [.obj [("text", .str "buy milk"), ("priority", .str "medium")]]),
     ("email", .arr [.obj [("subject", .str "s"), ("to", .str "recipient")]]),
     ("calendar", .arr [.str "event"])]) rfl
  injection hk with hinj
  subst hinj
  exact ⟨rfl, hs⟩

/-! ## Claim C1 — concrete force-resynthesize thresholds -/

/-- Counterexample to C1 as stated: for the existing narrative
"Short note." the claim promises a reason containing "short" for ANY new
content, but two words of new content (2 > 2 * 0.5) fire the
higher-priority "substantial" check first, and that reason does not
contain "short". -/
theorem claim_C1_force_thresholds_counterexample :
    shouldForceResynthesize "Short note." "alpha beta" ([] : List Json) =
      (true, some "New content is substantial relative to existing note") ∧
    containsSubstr "short"
      (asciiLower "New content is substantial relative to existing note") = false := by
  constructor
  · rfl
  · decide

/-- C1 (amended): the 100/60-word instance returns the "substantial"
reason for any history; the "Short note." instance returns the "short"
reason only for new content of at most one word with fewer than five
history entries — for two or more words of new content the substantial
check fires first (first-match-wins) and the returned reason contains
"substantial", not "short"; the 200/30-word instance with three history
entries forces nothing. -/
theorem claim_C1_force_thresholds_amended :
    (∀ {α : Type} (e n : String) (hist : List α), wordCount e = 100 →
      wordCount n = 60 →
      shouldForceResynthesize e n hist =
        (true, some "New content is substantial relative to existing note") ∧
      containsSubstr "substantial"
        (asciiLower "New content is substantial relative to existing note") = true) ∧
    (∀ {α : Type} (n : String) (hist : List α), wordCount n ≤ 1 →
      hist.length < 5 →
      shouldForceResynthesize "Short note." n hist =
        (true, some "Short note benefits from full synthesis") ∧
      containsSubstr "short"
        (asciiLower "Short note benefits from full synthesis") = true) ∧
    (∀ {α : Type} (n : String) (hist : List α), 2 ≤ wordCount n →
      shouldForceResynthesize "Short note." n hist =
        (true, some "New content is substantial relative to existing note")) ∧
    (∀ {α : Type} (e n : String) (hist : List α), wordCount e = 200 →
      wordCount n = 30 → hist.length = 3 →
      shouldForceResynthesize e n hist = (false, none)) := by
  refine ⟨?_, ?_, ?_, ?_⟩
  · intro α e n hist he hn
    refine ⟨?_, by decide⟩
    simp only [shouldForceResynthesize, he, hn]
    rw [if_pos (by omega)]
  · intro α n hist hn hl
    have he : wordCount "Short note." = 2 := rfl
    refine ⟨?_, by decide⟩
    simp only [shouldForceResynthesize, he]
    rw [if_neg (by omega), if_neg (by omega), if_pos (by omega)]
  · intro α n hist hn
    have he : wordCount "Short note." = 2 := rfl
    simp only [shouldForceResynthesize, he]
    rw [if_pos (by omega)]
  · intro α e n hist he hn hl
    simp only [shouldForceResynthesize, he, hn, hl]
    rw [if_neg (by omega), if_neg (by omega), if_neg (by omega)]

/-- Witness for the amended C1 at concrete strings of the stated word
counts. -/
theorem claim_C1_force_thresholds_amended_witness :
    (shouldForceResynthesize (mkWords 100) (mkWords 60) ([] : List Json) =
      (true, some "New content is substantial relative to existing note")) ∧
    (shouldForceResynthesize "Short note." "w" ([] : List Json) =
      (true, some "Short note benefits from full synthesis")) ∧
    (shouldForceResynthesize "Short note." "alpha beta" ([] : List Json) =
      (true, some "New content is substantial relative to existing note")) ∧
    (shouldForceResynthesize (mkWords 200) (mkWords 30) [Json.null, Json.null, Json.null] =
      (false, none)) :=
  ⟨(claim_C1_force_thresholds_amended.1 (mkWords 100) (mkWords 60) []
      (by decide) (by decide)).1,
   (claim_C1_force_thresholds_amended.2.1 "w" [] (by decide) (by decide)).1,
   claim_C1_force_thresholds_amended.2.2.1 "alpha beta" [] (by decide),
   claim_C1_force_thresholds_amended.2.2.2 (mkWords 200) (mkWords 30) _
      (by decide) (by decide) rfl⟩

/-! ## Claim C9 — token budget scaling -/

/-- Counterexample to C9 as stated: both budgets are capped at the SAME
hard ceiling of 8000 (`min(8000, ...)` in both functions), so
comprehensive synthesis does not have a strictly higher ceiling — at a
large word count both budgets are 8000 and comprehensive does not exceed
plain synthesis. -/
theorem claim_C9_token_budget_counterexample :
    synthMaxTokens 100000 = 8000 ∧ compMaxTokens 100000 = 8000 ∧
    ¬ synthMaxTokens 100000 < compMaxTokens 100000 :=
  ⟨rfl, rfl, by simp [synthMaxTokens, compMaxTokens]⟩

/-- C9 (amended): `max_tokens` scales with the input word count — exactly
3× for plain synthesis and 4× for comprehensive synthesis in the linear
regime — with floors 3000/4000, and both are capped at the same hard
ceiling 8000 (not a strictly higher one for comprehensive); for every
word count the comprehensive budget is at least the plain budget. -/
theorem claim_C9_token_budget_amended :
    (∀ w, synthMaxTokens w ≤ compMaxTokens w) ∧
    (∀ w, synthMaxTokens w ≤ 8000) ∧
    (∀ w, compMaxTokens w ≤ 8000) ∧
    (∀ w, 1000 ≤ w → w * 3 ≤ 8000 → synthMaxTokens w = w * 3) ∧
    (∀ w, 1000 ≤ w → w * 4 ≤ 8000 → compMaxTokens w = w * 4) ∧
    synthMaxTokens 2667 = 8000 ∧ compMaxTokens 2000 = 8000 := by
  refine ⟨?_, ?_, ?_, ?_, ?_, rfl, rfl⟩ <;>
    intro w <;> simp only [synthMaxTokens, compMaxTokens] <;> omega

/-- Witness for the amended C9 in the linear regime at 1500 words. -/
theorem claim_C9_token_budget_amended_witness :
    synthMaxTokens 1500 = 1500 * 3 ∧ compMaxTokens 1500 = 1500 * 4 ∧
    synthMaxTokens 1500 ≤ compMaxTokens 1500 :=
  ⟨claim_C9_token_budget_amended.2.2.2.1 1500 (by norm_num) (by norm_num),
   claim_C9_token_budget_amended.2.2.2.2.1 1500 (by norm_num) (by norm_num),
   claim_C9_token_budget_amended.1 1500⟩

/-! ## Claim C8 — parse-failure fallback of synthesize_content -/

/-- C8: when the combined input is non-empty and within the 50,000
character limit and the generative reply is unparsable, the fallback
narrative of `synthesize_content` is the raw combined input verbatim
(hence non-empty); in particular the parse-failure narrative of
`synthesize(text_input="hello world", "")` contains the literal
"hello world". -/
theorem claim_C8_parse_failure_narrative :
    (∀ (t a : String) (f : Option (List String)),
      combineInputs t a ≠ "" →
      (combineInputs t a).length ≤ maxTranscriptLength →
      fieldOf (synthesizeContent none t a f) "narrative" =
        some (.str (combineInputs t a))) ∧
    (∃ s, fieldOf (synthesizeContent none "hello world" "" none) "narrative" =
        some (.str s) ∧ containsSubstr "hello world" s = true) := by
  constructor
  · intro t a f hne hlen
    have hno : ¬ (combineInputs t a).length > maxTranscriptLength := by omega
    simp only [synthesizeContent, if_neg hne, validateInputLength, hno, if_false,
      fieldOf, getKey]
    simp
  · exact ⟨"hello world", rfl, by decide⟩

/-- Witness for C8 at `text_input = "hello world"`. -/
theorem claim_C8_parse_failure_narrative_witness :
    fieldOf (synthesizeContent none "hello world" "" none) "narrative" =
      some (.str (combineInputs "hello world" "")) :=
  claim_C8_parse_failure_narrative.1 "hello world" "" none (by decide) (by decide)

/-! ## Claim C5 — parse-failure fallback of the decision engine -/

theorem validateInputLength_of_le (s : String)
    (h : s.length ≤ maxTranscriptLength) : validateInputLength s = s := by
  rw [validateInputLength, if_neg (by omega)]

/-- The parse-failure narrative of `smart_synthesize`, symbolically: the
concatenation of the TRUNCATED inputs. -/
theorem narrativeOf_parse_failure (n e t : String) (s? : Option String)
    (f : Option (List String)) :
    narrativeOf (smartSynthesize none n e t s? f) =
      some (.str (validateInputLength e ++ "\n\n" ++ validateInputLength n)) := rfl

theorem overlongInput_truncates :
    validateInputLength overlongInput ≠ overlongInput ∧
    (validateInputLength overlongInput).length = 50000 ∧
    overlongInput.length = 50001 := by
  have hlen : overlongInput.length = 50001 := by
    show (List.replicate 50001 'a').length = 50001
    exact List.length_replicate ..
  have hgt : overlongInput.length > maxTranscriptLength := by
    rw [hlen]; norm_num [maxTranscriptLength]
  have htr : validateInputLength overlongInput =
      String.mk (overlongInput.data.take maxTranscriptLength) := by
    rw [validateInputLength, if_pos hgt]
  have hlen2 : (validateInputLength overlongInput).length = 50000 := by
    rw [htr]
    show (overlongInput.data.take maxTranscriptLength).length = 50000
    rw [List.length_take]
    show min 50000 (List.replicate 50001 'a').length = 50000
    rw [List.length_replicate]
    omega
  refine ⟨?_, hlen2, hlen⟩
  intro heq
  rw [heq, hlen] at hlen2
  exact absurd hlen2 (by norm_num)

/-- Counterexample to C5 as stated: the decision engine truncates both
inputs to `MAX_TRANSCRIPT_LENGTH` = 50000 characters before the
parse-failure concatenation, so for a 50001-character existing narrative
the fallback narrative is NOT `existing + "\n\n" + new` — the character
beyond the limit is discarded. -/
theorem claim_C5_parse_failure_fallback_counterexample :
    narrativeOf (smartSynthesize none "x" overlongInput "t" none none) =
      some (.str (validateInputLength overlongInput ++ "\n\n" ++ "x")) ∧
    narrativeOf (smartSynthesize none "x" overlongInput "t" none none) ≠
      some (.str (overlongInput ++ "\n\n" ++ "x")) := by
  have hx : validateInputLength "x" = "x" :=
    validateInputLength_of_le "x" (by decide)
  constructor
  · rw [narrativeOf_parse_failure, hx]
  · intro h
    rw [narrativeOf_parse_failure, hx] at h
    have h3 : (validateInputLength overlongInput ++ "\n\n" ++ "x").length =
        (overlongInput ++ "\n\n" ++ "x").length :=
      congrArg (fun o => match o with | some (Json.str s) => s.length | _ => 0) h
    rw [String.length_append, String.length_append, String.length_append,
        String.length_append, overlongInput_truncates.2.1,
        overlongInput_truncates.2.2] at h3
    omega

/-- C5 (amended): for inputs within the 50,000-character transcript limit,
the parse-failure branch of `smart_synthesize` returns decision
{append, 0.5, "JSON parse failed, defaulting to append"} and a result
whose narrative is exactly `existing + "\n\n" + new`, whose title is the
existing title and whose summary is the existing summary; beyond the
limit the same holds with the inputs truncated to 50,000 characters. -/
theorem claim_C5_parse_failure_fallback_amended
    (n e t : String) (s? : Option String) (f : Option (List String))
    (he : e.length ≤ maxTranscriptLength) (hn : n.length ≤ maxTranscriptLength) :
    smartSynthesize none n e t s? f = .ok (.obj [
      ("decision", .obj [
        ("update_type", .str "append"),
        ("confidence", .num (1 / 2)),
        ("reason", .str "JSON parse failed, defaulting to append")]),
      ("result", .obj [
        ("narrative", .str (e ++ "\n\n" ++ n)),
        ("title", .str t),
        ("folder", .str "Personal"),
        ("tags", .arr []),
        ("summary", optStr s?),
        ("calendar", .arr []),
        ("email", .arr []),
        ("reminders", .arr []),
        ("next_steps", .arr [])])]) := by
  simp only [smartSynthesize, validateInputLength_of_le n hn,
    validateInputLength_of_le e he]

/-- Witness for the amended C5 at short inputs. -/
theorem claim_C5_parse_failure_fallback_amended_witness :
    smartSynthesize none "x" "hi" "t" (some "sum") (some ["Work"]) = .ok (.obj [
      ("decision", .obj [
        ("update_type", .str "append"),
        ("confidence", .num (1 / 2)),
        ("reason", .str "JSON parse failed, defaulting to append")]),
      ("result", .obj [
        ("narrative", .str ("hi" ++ "\n\n" ++ "x")),
        ("title", .str "t"),
        ("folder", .str "Personal"),
        ("tags", .arr []),
        ("summary", optStr (some "sum")),
        ("calendar", .arr []),
        ("email", .arr []),
        ("reminders", .arr []),
        ("next_steps", .arr [])])]) :=
  claim_C5_parse_failure_fallback_amended "x" "hi" "t" (some "sum") (some ["Work"])
    (by decide) (by decide)

/-! ## Claim C4 — forced resynthesize short-circuits the decision call -/

/-- C4: whenever the heuristic force-check fires with reason `r`, the
decision engine returns decision
{update_type: resynthesize, confidence: 0.95, reason: r} with result the
comprehensive resynthesis over the full input history — and the outcome
does not depend on the decision-call reply `decisionData?` at all, i.e.
no generative decision call is consulted: the heuristic check is decided
before and instead of the model-driven path. -/
theorem claim_C4_forced_resynthesize (e n t : String) (s? : Option String)
    (hist : List HistoryEntry) (f : Option (List String)) (r : String)
    (hforce : shouldForceResynthesize e n hist = (true, some r))
    (resynthData? decisionData? : Option Json) :
    serviceSmartSynthesize resynthData? decisionData? n e t s? hist f =
      (resynthesizeContent resynthData? hist f).map (fun result => .obj [
        ("decision", .obj [
          ("update_type", .str "resynthesize"),
          ("confidence", .num (19 / 20)),
          ("reason", .str r)]),
        ("result", result)]) := by
  simp only [serviceSmartSynthesize, hforce, Option.getD]
  rcases hres : resynthesizeContent resynthData? hist f with err | res <;>
    simp [hres, Except.map]

/-- Witness for C4: empty existing narrative (0 words < 50) forces the
short-note heuristic; the returned value ignores the decision reply. -/
theorem claim_C4_forced_resynthesize_witness :
    serviceSmartSynthesize none (some .null) "" "" "t" none [] none =
      (resynthesizeContent none [] none).map (fun result => .obj [
        ("decision", .obj [
          ("update_type", .str "resynthesize"),
          ("confidence", .num (19 / 20)),
          ("reason", .str "Short note benefits from full synthesis")]),
        ("result", result)]) :=
  claim_C4_forced_resynthesize "" "" "t" none [] none
    "Short note benefits from full synthesis" rfl none (some .null)

/-! ## Claim C2 — which branches pass through sanitization -/

theorem pySlice5_ok_arr (v : Json) (xs : List Json)
    (h : pySlice5 v = .ok (.arr xs)) : xs.length ≤ 5 := by
  match v with
  | .arr ys =>
      rw [pySlice5] at h
      cases h
      exact List.length_take_le ..
  | .str s => rw [pySlice5] at h; cases h
  | .null => rw [pySlice5] at h; cases h
  | .bool b => rw [pySlice5] at h; cases h
  | .num q => rw [pySlice5] at h; cases h
  | .obj o => rw [pySlice5] at h; cases h

/-- A mapped result dict whose folder, tags, reminders and email bindings
are the projections the pipelines build out of a validated dict is itself
a fixpoint of `validate_llm_output`. -/
theorem fixpoint_of_projected (fl : List String) (hfl : fl ≠ [])
    (kvs : List (String × Json)) (tags : Json)
    (hprops : folderProp (getKey kvs "folder") fl ∧
      (∀ xs, getKey kvs "tags" = some (.arr xs) → xs.length ≤ 5) ∧
      ((∀ v, getKey kvs "reminders" = some v → iterable v = true) ∧
        (∀ xs, getKey kvs "reminders" = some (.arr xs) → xs.map fixReminder = xs)) ∧
      ((∀ v, getKey kvs "email" = some v → iterable v = true) ∧
        (∀ xs, getKey kvs "email" = some (.arr xs) → xs.map fixEmail = xs)))
    (hslice : pySlice5 ((getKey kvs "tags").getD (.arr [])) = .ok tags)
    (L : List (String × Json))
    (hfold : getKey L "folder" = some ((getKey kvs "folder").getD (.str "Personal")))
    (htags : getKey L "tags" = some tags)
    (hrem : getKey L "reminders" = some ((getKey kvs "reminders").getD (.arr [])))
    (hml : getKey L "email" = some ((getKey kvs "email").getD (.arr []))) :
    validateLlmOutput (.obj L) fl = .ok (.obj L) := by
  obtain ⟨⟨s, hs, hsmem⟩, hcap, ⟨hri, hrf⟩, hei, hef⟩ := hprops
  have hsfl : s ∈ fl := by
    rcases hsmem with h | ⟨h, _⟩
    · exact h
    · exact absurd h hfl
  refine validateLlmOutput_of_props fl L ?_ ?_ ?_ ?_ ?_ ?_
  · refine ⟨s, ?_, Or.inl hsfl⟩
    rw [hfold, hs]
    rfl
  · intro xs hx
    rw [htags] at hx
    cases hx
    exact pySlice5_ok_arr _ _ hslice
  · intro v hv
    rw [hrem] at hv
    cases hv
    match hg : getKey kvs "reminders" with
    | none => rfl
    | some w => exact hri w hg
  · intro xs hx
    rw [hrem] at hx
    match hg : getKey kvs "reminders" with
    | none =>
        rw [hg] at hx
        cases hx
        rfl
    | some w =>
        rw [hg] at hx
        cases hx
        exact hrf xs hg
  · intro v hv
    rw [hml] at hv
    cases hv
    match hg : getKey kvs "email" with
    | none => rfl
    | some w => exact hei w hg
  · intro xs hx
    rw [hml] at hx
    match hg : getKey kvs "email" with
    | none =>
        rw [hg] at hx
        cases hx
        rfl
    | some w =>
        rw [hg] at hx
        cases hx
        exact hef xs hg

/-- Shape of every successful model-driven `smart_synthesize` return. -/
theorem smartSynthesize_some_elim (data : Json) (n e t : String)
    (s? : Option String) (f : Option (List String)) (out : Json)
    (h : smartSynthesize (some data) n e t s? f = .ok out) :
    ∃ dkvs kvs tags,
      data = .obj dkvs ∧
      validateLlmOutput ((getKey dkvs "result").getD (.obj dkvs)) (resolveFolders f)
        = .ok (.obj kvs) ∧
      pySlice5 ((getKey kvs "tags").getD (.arr [])) = .ok tags ∧
      out = .obj [
        ("decision", (getKey dkvs "decision").getD (.obj [
          ("update_type", .str "append"),
          ("confidence", .num (1 / 2)),
          ("reason", .str "Default decision")])),
        ("result", .obj [
          ("narrative", (getKey kvs "narrative").getD
            (.str (validateInputLength e ++ "\n\n" ++ validateInputLength n))),
          ("title", (getKey kvs "title").getD (.str t)),
          ("folder", (getKey kvs "folder").getD (.str "Personal")),
          ("tags", tags),
          ("summary", (getKey kvs "summary").getD (optStr s?)),
          ("format_composition", extractFormatComposition kvs),
          ("related_entities", (getKey kvs "related_entities").getD .null),
          ("open_loops", (getKey kvs "open_loops").getD (.arr [])),
          ("calendar", (getKey kvs "calendar").getD (.arr [])),
          ("email", (getKey kvs "email").getD (.arr [])),
          ("reminders", (getKey kvs "reminders").getD (.arr [])),
          ("next_steps", .arr [])])] := by
  simp only [smartSynthesize] at h
  split at h
  next dkvs =>
    split at h
    next err heq => cases h
    next vdata hval =>
      split at h
      next kvs =>
        split at h
        next err heq => cases h
        next tags hslice =>
          cases h
          exact ⟨dkvs, kvs, tags, rfl, hval, hslice, rfl⟩
      next hne => cases h
  next hne => cases h

/-- Shape of every successful model-driven `comprehensive_synthesize`
return on non-empty combined input. -/
theorem comprehensiveSynthesize_some_elim (data : Json) (t a : String)
    (f : Option (List String)) (out : Json)
    (hne : combineInputs t a ≠ "")
    (h : comprehensiveSynthesize (some data) t a f = .ok out) :
    ∃ kvs tags,
      validateLlmOutput data (resolveFolders f) = .ok (.obj kvs) ∧
      pySlice5 ((getKey kvs "tags").getD (.arr [])) = .ok tags ∧
      out = .obj [
        ("narrative", (getKey kvs "narrative").getD
          (.str (validateInputLength (combineInputs t a)))),
        ("title", (getKey kvs "title").getD (.str "Voice Note")),
        ("folder", (getKey kvs "folder").getD (.str "Personal")),
        ("tags", tags),
        ("summary", (getKey kvs "summary").getD
          ((getKey kvs "narrative").getD
            (.str (validateInputLength (combineInputs t a))))),
        ("type_detection", (getKey kvs "type_detection").getD .null),
        ("format_composition", extractFormatComposition kvs),
        ("related_entities", (getKey kvs "related_entities").getD .null),
        ("open_loops", (getKey kvs "open_loops").getD (.arr [])),
        ("calendar", (getKey kvs "calendar").getD (.arr [])),
        ("email", (getKey kvs "email").getD (.arr [])),
        ("reminders", (getKey kvs "reminders").getD (.arr []))] := by
  simp only [comprehensiveSynthesize, if_neg hne] at h
  split at h
  next err heq => cases h
  next vdata hval =>
    split at h
    next kvs =>
      split at h
      next err heq => cases h
      next tags hslice =>
        cases h
        exact ⟨kvs, tags, hval, hslice, rfl⟩
    next hno => cases h

/-- Counterexample to C2 as stated: the model-driven PARSE-FAILURE branch
of the decision engine returns its hard-coded fallback result (folder
"Personal") without passing it through `validate_llm_output`; with the
caller's allowed folder list ["Work"] that result is not
sanitization-invariant — sanitizing it changes the folder — so it cannot
have been passed through the §4.5 sanitization. -/
theorem claim_C2_every_branch_sanitized_counterexample :
    resultOf (smartSynthesize none "n" "e" "t" none (some ["Work"])) =
      some (.obj [("narrative", .str ("e" ++ "\n\n" ++ "n")), ("title", .str "t"),
        ("folder", .str "Personal"), ("tags", .arr []), ("summary", .null),
        ("calendar", .arr []), ("email", .arr []), ("reminders", .arr []),
        ("next_steps", .arr [])]) ∧
    validateLlmOutput (.obj [("narrative", .str ("e" ++ "\n\n" ++ "n")),
        ("title", .str "t"),
        ("folder", .str "Personal"), ("tags", .arr []), ("summary", .null),
        ("calendar", .arr []), ("email", .arr []), ("reminders", .arr []),
        ("next_steps", .arr [])]) ["Work"] ≠
      .ok (.obj [("narrative", .str ("e" ++ "\n\n" ++ "n")), ("title", .str "t"),
        ("folder", .str "Personal"), ("tags", .arr []), ("summary", .null),
        ("calendar", .arr []), ("email", .arr []), ("reminders", .arr []),
        ("next_steps", .arr [])]) := by
  constructor
  · rfl
  · intro h
    have h3 : (some (Json.str "Work") : Option Json) = some (Json.str "Personal") :=
      congrArg (fun x => match x with
        | Except.ok (Json.obj kvs) => getKey kvs "folder"
        | _ => none) h
    simp at h3

/-- C2 (amended): whenever the model reply parses, the returned result is
passed through (and is hence a fixpoint of) the §4.5 sanitization with the
caller's folder list — in the model-driven success branch, in the
comprehensive-resynthesis success branch, and in the forced-resynthesize
branch of the service coordinator; the parse-failure fallbacks, however,
are fixed default dicts that are NOT passed through sanitization (see the
counterexample). -/
theorem claim_C2_every_branch_sanitized_amended :
    (∀ (data : Json) (n e t : String) (s? : Option String)
        (f : Option (List String)) (res : Json),
      resultOf (smartSynthesize (some data) n e t s? f) = some res →
      validateLlmOutput res (resolveFolders f) = .ok res) ∧
    (∀ (data : Json) (t a : String) (f : Option (List String)) (j : Json),
      combineInputs t a ≠ "" →
      comprehensiveSynthesize (some data) t a f = .ok j →
      validateLlmOutput j (resolveFolders f) = .ok j) ∧
    (∀ (rdata : Json) (dd : Option Json) (n e t : String) (s? : Option String)
        (hist : List HistoryEntry) (f : Option (List String)) (res : Json),
      (shouldForceResynthesize e n hist).1 = true →
      combineInputs (historyTextInput hist) (historyAudioTranscript hist) ≠ "" →
      resultOf (serviceSmartSynthesize (some rdata) dd n e t s? hist f) = some res →
      validateLlmOutput res (resolveFolders f) = .ok res) := by
  have hb : ∀ (data : Json) (t a : String) (f : Option (List String)) (j : Json),
      combineInputs t a ≠ "" →
      comprehensiveSynthesize (some data) t a f = .ok j →
      validateLlmOutput j (resolveFolders f) = .ok j := by
    intro data t a f j hne h
    obtain ⟨kvs, tags, hval, hslice, hout⟩ :=
      comprehensiveSynthesize_some_elim data t a f j hne h
    subst hout
    exact fixpoint_of_projected _ (resolveFolders_ne_nil f) kvs tags
      (validateLlmOutput_props _ _ _ hval) hslice _ rfl rfl rfl rfl
  refine ⟨?_, hb, ?_⟩
  · intro data n e t s? f res hres
    rcases hcall : smartSynthesize (some data) n e t s? f with err | out
    · rw [hcall] at hres
      cases hres
    · rw [hcall] at hres
      obtain ⟨dkvs, kvs, tags, hdata, hval, hslice, hout⟩ :=
        smartSynthesize_some_elim data n e t s? f out hcall
      subst hout
      have h5 : some (Json.obj [
          ("narrative", (getKey kvs "narrative").getD
            (.str (validateInputLength e ++ "\n\n" ++ validateInputLength n))),
          ("title", (getKey kvs "title").getD (.str t)),
          ("folder", (getKey kvs "folder").getD (.str "Personal")),
          ("tags", tags),
          ("summary", (getKey kvs "summary").getD (optStr s?)),
          ("format_composition", extractFormatComposition kvs),
          ("related_entities", (getKey kvs "related_entities").getD .null),
          ("open_loops", (getKey kvs "open_loops").getD (.arr [])),
          ("calendar", (getKey kvs "calendar").getD (.arr [])),
          ("email", (getKey kvs "email").getD (.arr [])),
          ("reminders", (getKey kvs "reminders").getD (.arr [])),
          ("next_steps", .arr [])]) = some res := hres
      cases h5
      exact fixpoint_of_projected _ (resolveFolders_ne_nil f) kvs tags
        (validateLlmOutput_props _ _ _ hval) hslice _ rfl rfl rfl rfl
  · intro rdata dd n e t s? hist f res hforce hne hres
    rcases hsf : shouldForceResynthesize e n hist with ⟨b, ro⟩
    rw [hsf] at hforce
    cases hforce
    rcases hcall : resynthesizeContent (some rdata) hist f with err | result
    · rw [serviceSmartSynthesize] at hres
      rw [hsf] at hres
      simp only [hcall, resultOf] at hres
      cases hres
    · have hres2 : serviceSmartSynthesize (some rdata) dd n e t s? hist f =
          .ok (.obj [
            ("decision", .obj [
              ("update_type", .str "resynthesize"),
              ("confidence", .num (19 / 20)),
              ("reason", .str (ro.getD
                "Heuristic check determined resynthesize needed"))]),
            ("result", result)]) := by
        rw [serviceSmartSynthesize, hsf]
        simp only [hcall]
      rw [hres2] at hres
      have h5 : some result = some res := hres
      cases h5
      rw [resynthesizeContent] at hcall
      exact hb rdata _ _ f res hne hcall

/-- Witness for the amended C2: an empty-dict reply on the model-driven
path; the returned result (folder coerced to "Work") is a fixpoint of
sanitization under the caller folder list ["Work"]. -/
theorem claim_C2_every_branch_sanitized_amended_witness :
    validateLlmOutput (.obj [
      ("narrative", .str ("e" ++ "\n\n" ++ "n")),
      ("title", .str "t"),
      ("folder", .str "Work"),
      ("tags", .arr []),
      ("summary", .null),
      ("format_composition", .null),
      ("related_entities", .null),
      ("open_loops", .arr []),
      ("calendar", .arr []),
      ("email", .arr []),
      ("reminders", .arr []),
      ("next_steps", .arr [])]) ["Work"] = .ok (.obj [
      ("narrative", .str ("e" ++ "\n\n" ++ "n")),
      ("title", .str "t"),
      ("folder", .str "Work"),
      ("tags", .arr []),
      ("summary", .null),
      ("format_composition", .null),
      ("related_entities", .null),
      ("open_loops", .arr []),
      ("calendar", .arr []),
      ("email", .arr []),
      ("reminders", .arr []),
      ("next_steps", .arr [])]) :=
  claim_C2_every_branch_sanitized_amended.1 (.obj []) "n" "e" "t" none
    (some ["Work"]) _ rfl

/-! ## Claim C3 — decision-engine completeness -/

/-- Sanitization preserves every top-level binding other than `folder`,
`tags`, `reminders` and `email` (a consequence of the frame property,
stated directly on `getKey`). -/
theorem validateLlmOutput_getKey_preserved (fs : List String)
    (kvs0 kvs : List (String × Json))
    (h : validateLlmOutput (.obj kvs0) fs = .ok (.obj kvs)) (k : String)
    (h1 : k ≠ "folder") (h2 : k ≠ "tags") (h3 : k ≠ "reminders")
    (h4 : k ≠ "email") : getKey kvs k = getKey kvs0 k := by
  obtain ⟨kvs0w, kvs3, kvs4, hdw, hl3, hl4, hr⟩ :=
    validateLlmOutput_ok_elim (.obj kvs0) fs (.obj kvs) h
  injection hdw with hinj
  subst hinj
  injection hr with hinj2
  subst hinj2
  rw [sanitizeLoop_ok_getKey_ne _ _ _ _ hl4 _ h4,
      sanitizeLoop_ok_getKey_ne _ _ _ _ hl3 _ h3,
      getKey_sanitizeTagsStep_ne _ _ h2,
      getKey_sanitizeFolderStep_ne _ _ _ h1]

/-- The parse-failure return of `smart_synthesize`, in full. -/
theorem smartSynthesize_none_eq (n e t : String) (s? : Option String)
    (f : Option (List String)) :
    smartSynthesize none n e t s? f = .ok (.obj [
      ("decision", .obj [
        ("update_type", .str "append"),
        ("confidence", .num (1 / 2)),
        ("reason", .str "JSON parse failed, defaulting to append")]),
      ("result", .obj [
        ("narrative", .str (validateInputLength e ++ "\n\n" ++ validateInputLength n)),
        ("title", .str t),
        ("folder", .str "Personal"),
        ("tags", .arr []),
        ("summary", optStr s?),
        ("calendar", .arr []),
        ("email", .arr []),
        ("reminders", .arr []),
        ("next_steps", .arr [])])]) := rfl

/-- Every successful return of the service coordinator comes from either
the forced-resynthesize branch or the model-driven branch. -/
theorem serviceSmartSynthesize_ok_elim (rd dd : Option Json)
    (n e t : String) (s? : Option String) (hist : List HistoryEntry)
    (f : Option (List String)) (out : Json)
    (h : serviceSmartSynthesize rd dd n e t s? hist f = .ok out) :
    (∃ ro result, shouldForceResynthesize e n hist = (true, ro) ∧
      resynthesizeContent rd hist f = .ok result ∧
      out = .obj [
        ("decision", .obj [
          ("update_type", .str "resynthesize"),
          ("confidence", .num (19 / 20)),
          ("reason", .str (ro.getD
            "Heuristic check determined resynthesize needed"))]),
        ("result", result)]) ∨
    (∃ ro, shouldForceResynthesize e n hist = (false, ro) ∧
      smartSynthesize dd n e t s? f = .ok out) := by
  rcases hsf : shouldForceResynthesize e n hist with ⟨b, ro⟩
  rw [serviceSmartSynthesize, hsf] at h
  cases b with
  | false => exact Or.inr ⟨ro, rfl, h⟩
  | true =>
      rcases hcall : resynthesizeContent rd hist f with err | result
      · rw [hcall] at h
        cases h
      · rw [hcall] at h
        have h3 : Except.ok (Json.obj [
            ("decision", .obj [
              ("update_type", .str "resynthesize"),
              ("confidence", .num (19 / 20)),
              ("reason", .str (ro.getD
                "Heuristic check determined resynthesize needed"))]),
            ("result", result)]) = .ok out := h
        cases h3
        exact Or.inl ⟨ro, result, rfl, rfl, rfl⟩

/-- The empty-input early return of `comprehensive_synthesize`. -/
theorem comprehensiveSynthesize_empty (data? : Option Json) (t a : String)
    (f : Option (List String)) (h : combineInputs t a = "") :
    comprehensiveSynthesize data? t a f = .ok emptySynthesisResult := by
  simp only [comprehensiveSynthesize, if_pos h]

/-- The parse-failure fallback of `comprehensive_synthesize`. -/
theorem comprehensiveSynthesize_none_eq (t a : String)
    (f : Option (List String)) (hne : combineInputs t a ≠ "") :
    comprehensiveSynthesize none t a f = .ok (.obj [
      ("narrative", .str (validateInputLength (combineInputs t a))),
      ("title", .str "Voice Note"),
      ("folder", .str "Personal"),
      ("tags", .arr []),
      ("summary", .str (validateInputLength (combineInputs t a))),
      ("type_detection", .null),
      ("format_composition", .null),
      ("related_entities", .null),
      ("open_loops", .arr []),
      ("calendar", .arr []),
      ("email", .arr []),
      ("reminders", .arr [])]) := by
  simp only [comprehensiveSynthesize, if_neg hne]

/-- Counterexample to C3 as stated: the decision engine does NOT validate
the model-supplied decision or narrative.  With a 50-word existing note,
one word of new content and an empty history (so no heuristic fires), a
parsed model reply `{"narrative": null, "decision": {"update_type":
"replace"}}` is passed through: the returned `result.narrative` is null
and the returned `decision.update_type` is "replace", which is neither
"append" nor "resynthesize". -/
theorem claim_C3_decision_completeness_counterexample :
    narrativeOf (serviceSmartSynthesize none
      (some (.obj [("narrative", .null),
                   ("decision", .obj [("update_type", .str "replace")])]))
      "x" (mkWords 50) "t" none [] none) = some .null ∧
    updateTypeOf (serviceSmartSynthesize none
      (some (.obj [("narrative", .null),
                   ("decision", .obj [("update_type", .str "replace")])]))
      "x" (mkWords 50) "t" none [] none) = some (.str "replace") ∧
    "replace" ≠ "append" ∧ "replace" ≠ "resynthesize" :=
  ⟨rfl, rfl, by decide, by decide⟩

/-- C3 (amended): every successful return of the decision engine is an
object with BOTH a `decision` and a `result` (no path returns a decision
without a result).  The returned `result.narrative` is non-null provided
the parsed reply does not itself map `narrative` to null (the engine
passes an explicit null narrative through — see the counterexample); in
the forced branch `decision.update_type` is "resynthesize" and in the
parse-failure branch it is "append" with the literal concatenation as
narrative, but in the model-driven success branch the model's decision is
passed through unvalidated, so membership of `update_type` in
{append, resynthesize} is not guaranteed for arbitrary replies. -/
theorem claim_C3_decision_completeness_amended :
    (∀ (rd dd : Option Json) (n e t : String) (s? : Option String)
        (hist : List HistoryEntry) (f : Option (List String)) (out : Json),
      serviceSmartSynthesize rd dd n e t s? hist f = .ok out →
      ∃ dec res, out = .obj [("decision", dec), ("result", res)]) ∧
    (∀ (rd dd : Option Json) (n e t : String) (s? : Option String)
        (hist : List HistoryEntry) (f : Option (List String)) (out : Json),
      serviceSmartSynthesize rd dd n e t s? hist f = .ok out →
      (∀ dkvs, dd = some (.obj dkvs) → ∀ rkvs,
        (getKey dkvs "result").getD (.obj dkvs) = .obj rkvs →
        getKey rkvs "narrative" ≠ some .null) →
      (∀ rkvs, rd = some (.obj rkvs) → getKey rkvs "narrative" ≠ some .null) →
      ∃ v, narrativeOf (.ok out : Except String Json) = some v ∧ v ≠ .null) ∧
    (∀ (rd dd : Option Json) (n e t : String) (s? : Option String)
        (hist : List HistoryEntry) (f : Option (List String)) (out : Json),
      serviceSmartSynthesize rd dd n e t s? hist f = .ok out →
      (shouldForceResynthesize e n hist).1 = true →
      updateTypeOf (.ok out : Except String Json) = some (.str "resynthesize")) ∧
    (∀ (rd : Option Json) (n e t : String) (s? : Option String)
        (hist : List HistoryEntry) (f : Option (List String)),
      shouldForceResynthesize e n hist = (false, none) →
      updateTypeOf (serviceSmartSynthesize rd none n e t s? hist f) =
        some (.str "append") ∧
      narrativeOf (serviceSmartSynthesize rd none n e t s? hist f) =
        some (.str (validateInputLength e ++ "\n\n" ++ validateInputLength n))) := by
  refine ⟨?_, ?_, ?_, ?_⟩
  · intro rd dd n e t s? hist f out h
    rcases serviceSmartSynthesize_ok_elim rd dd n e t s? hist f out h with
      ⟨ro, result, hsf, hcall, hout⟩ | ⟨ro, hsf, hok⟩
    · subst hout
      exact ⟨_, _, rfl⟩
    · cases dd with
      | none =>
          rw [smartSynthesize_none_eq] at hok
          cases hok
          exact ⟨_, _, rfl⟩
      | some data =>
          obtain ⟨dkvs, kvs, tags, hdata, hval, hslice, hout⟩ :=
            smartSynthesize_some_elim data n e t s? f out hok
          subst hout
          exact ⟨_, _, rfl⟩
  · intro rd dd n e t s? hist f out h hnn1 hnn2
    rcases serviceSmartSynthesize_ok_elim rd dd n e t s? hist f out h with
      ⟨ro, result, hsf, hcall, hout⟩ | ⟨ro, hsf, hok⟩
    · subst hout
      rw [resynthesizeContent] at hcall
      by_cases hemp : combineInputs (historyTextInput hist)
          (historyAudioTranscript hist) = ""
      · rw [comprehensiveSynthesize_empty rd _ _ f hemp] at hcall
        cases hcall
        exact ⟨.str "", rfl, nofun⟩
      · cases rd with
        | none =>
            rw [comprehensiveSynthesize_none_eq _ _ f hemp] at hcall
            cases hcall
            exact ⟨.str (validateInputLength (combineInputs
              (historyTextInput hist) (historyAudioTranscript hist))), rfl, nofun⟩
        | some rdata =>
            obtain ⟨kvs, tags, hval, hslice, hres⟩ :=
              comprehensiveSynthesize_some_elim rdata _ _ f result hemp hcall
            subst hres
            obtain ⟨dkvs0, kvs3x, kvs4x, hdw, _, _, _⟩ :=
              validateLlmOutput_ok_elim rdata _ _ hval
            subst hdw
            have hpres := validateLlmOutput_getKey_preserved _ dkvs0 kvs hval
              "narrative" (by decide) (by decide) (by decide) (by decide)
            refine ⟨(getKey dkvs0 "narrative").getD
                (.str (validateInputLength (combineInputs
                  (historyTextInput hist) (historyAudioTranscript hist)))), ?_, ?_⟩
            · rw [← hpres]
              rfl
            · match hg : getKey dkvs0 "narrative" with
              | none => exact nofun
              | some w =>
                  exact fun hw => hnn2 dkvs0 rfl
                    (by rw [hg]; exact congrArg some (show w = Json.null from hw))
    · cases dd with
      | none =>
          rw [smartSynthesize_none_eq] at hok
          cases hok
          exact ⟨.str (validateInputLength e ++ "\n\n" ++ validateInputLength n),
            rfl, nofun⟩
      | some data =>
          obtain ⟨dkvs, kvs, tags, hdata, hval, hslice, hout⟩ :=
            smartSynthesize_some_elim data n e t s? f out hok
          subst hout
          subst hdata
          obtain ⟨rkvs0, kvs3x, kvs4x, hdw, _, _, _⟩ :=
            validateLlmOutput_ok_elim _ _ _ hval
          rw [hdw] at hval
          have hpres := validateLlmOutput_getKey_preserved _ rkvs0 kvs hval
            "narrative" (by decide) (by decide) (by decide) (by decide)
          refine ⟨(getKey rkvs0 "narrative").getD
              (.str (validateInputLength e ++ "\n\n" ++ validateInputLength n)), ?_, ?_⟩
          · rw [← hpres]
            rfl
          · match hg : getKey rkvs0 "narrative" with
            | none => exact nofun
            | some w =>
                exact fun hw => hnn1 dkvs rfl rkvs0 hdw
                  (by rw [hg]; exact congrArg some (show w = Json.null from hw))
  · intro rd dd n e t s? hist f out h hforce
    rcases serviceSmartSynthesize_ok_elim rd dd n e t s? hist f out h with
      ⟨ro, result, hsf, hcall, hout⟩ | ⟨ro, hsf, hok⟩
    · subst hout
      rfl
    · rw [hsf] at hforce
      cases hforce
  · intro rd n e t s? hist f hsf
    constructor
    · rw [serviceSmartSynthesize, hsf]
      rfl
    · rw [serviceSmartSynthesize, hsf]
      rfl

/-- Witness for the amended C3: a 50-word existing note, one word of new
content and an empty history reach the model-driven path; with an
unparsable reply the engine returns append with the literal
concatenation, and the returned object has both components. -/
theorem claim_C3_decision_completeness_amended_witness :
    (∃ dec res, Json.obj [
      ("decision", .obj [
        ("update_type", .str "append"),
        ("confidence", .num (1 / 2)),
        ("reason", .str "JSON parse failed, defaulting to append")]),
      ("result", .obj [
        ("narrative", .str (validateInputLength (mkWords 50) ++ "\n\n" ++
          validateInputLength "x")),
        ("title", .str "t"),
        ("folder", .str "Personal"),
        ("tags", .arr []),
        ("summary", optStr none),
        ("calendar", .arr []),
        ("email", .arr []),
        ("reminders", .arr []),
        ("next_steps", .arr [])])] = .obj [("decision", dec), ("result", res)]) ∧
    updateTypeOf (serviceSmartSynthesize none none "x" (mkWords 50) "t" none [] none) =
      some (.str "append") ∧
    narrativeOf (serviceSmartSynthesize none none "x" (mkWords 50) "t" none [] none) =
      some (.str (validateInputLength (mkWords 50) ++ "\n\n" ++
        validateInputLength "x")) :=
  ⟨claim_C3_decision_completeness_amended.1 none none "x" (mkWords 50) "t" none []
      none _ (by rw [serviceSmartSynthesize, show shouldForceResynthesize
        (mkWords 50) "x" ([] : List HistoryEntry) = (false, none) by decide]; rfl),
   (claim_C3_decision_completeness_amended.2.2.2 none "x" (mkWords 50) "t" none []
      none (by decide)).1,
   (claim_C3_decision_completeness_amended.2.2.2 none "x" (mkWords 50) "t" none []
      none (by decide)).2⟩
